import Mathlib

/-!
Shallow embedding of the order-fulfillment and inventory-reconciliation core of
the materiah repository (Django models in `materiah/models/`, the order
serializer `materiah/serializers/order_serializer.py`, and the notification
jobs in `materiah/tasks.py`).

Conventions of the embedding:
* database rows become structures, tables become lists of rows;
* Django ORM calls (`get`, `filter`, `create`, `save`, `delete`) become explicit
  list lookups and functional updates on a `DB` record;
* `DateTimeField` / `DurationField` / `DecimalField` values are modelled as
  exact rationals (`ℚ`), `DateField` values as integers (days);
* Python code that can raise an exception is modelled in `Except String`;
  `@transaction.atomic` is modelled by a wrapper that keeps the pre-call state
  whenever the body returns an error;
* Python truthiness is made explicit where the source relies on it (a non-empty
  string literal is truthy; `None`, `0` and `[]` are falsy).
-/

/-- A row of the `Product` table (`materiah/models/product.py`, class `Product`).
Fields that none of the analysed code paths read (location, discount, currency,
previous price/discount, notes, units_per_sub_unit) are omitted; the fields
seeded by `OrderSerializer.create_inventory_product_or_update_statistics_and_quantity`
are all present.  `stock` is nullable (`PositiveIntegerField(null=True)`);
`manufacturer` is nullable; the `supplier` reference is kept optional here so
that a product row created with empty defaults can be represented. -/
structure ProductRow where
  id : Nat
  cat_num : String
  supplier_cat_item : Bool
  name : String
  category : String
  unit : String
  unit_quantity : Option ℚ
  stock : Option Int
  storage : String
  price : Option ℚ
  url : Option String
  manufacturerId : Option Nat
  supplierId : Option Nat
  deriving Repr, DecidableEq

/-- A row of the `Quote` table (`materiah/models/quote.py`): only the fields the
order-reconciliation flow touches (`id`, `supplier`, `status`). -/
structure QuoteRow where
  id : Nat
  supplierId : Nat
  status : String
  deriving Repr, DecidableEq

/-- A row of the `QuoteItem` table (`materiah/models/quote.py`). -/
structure QuoteItemRow where
  id : Nat
  quoteId : Nat
  productId : Nat
  quantity : Nat
  price : Option ℚ
  deriving Repr, DecidableEq

/-- A row of the `Order` table (`materiah/models/order.py`). -/
structure OrderRow where
  id : Nat
  quoteId : Option Nat
  arrivalDate : Int
  receivedBy : Option String
  deriving Repr, DecidableEq

/-- A row of the `OrderItem` table (`materiah/models/order.py`). -/
structure OrderItemRow where
  id : Nat
  orderId : Nat
  quoteItemId : Option Nat
  quantity : Nat
  status : String
  issueDetail : Option String
  deriving Repr, DecidableEq

/-- A row of the `StockItem` table (`materiah/models/product.py`, class
`StockItem`): product reference, optional originating order item, optional
batch label and expiry date (days). The `in_use`, `opened_on` and
`item_sub_stock` fields are not read by any analysed path and are omitted. -/
structure StockItemRow where
  id : Nat
  productId : Nat
  orderItemId : Option Nat
  batch : Option String
  expiry : Option Int
  deriving Repr, DecidableEq

/-- A row of the `ProductOrderStatistics` table (`materiah/models/product.py`).
`avg_order_quantity` is a non-nullable `DecimalField` with default 0, so it is
a plain rational; `last_ordered` and `avg_order_time` are nullable. -/
structure StatisticsRow where
  productId : Nat
  order_count : Int
  last_ordered : Option ℚ
  avg_order_time : Option ℚ
  avg_order_quantity : ℚ
  deriving Repr, DecidableEq

/-- One entry of the `stock_items` list a client submits with an order line:
an optional primary key (present for in-place updates), optional batch and
optional expiry, mirroring the dictionaries read with `.get('batch', None)` /
`.get('expiry', None)` in the order serializer. -/
structure StockItemHint where
  hintId : Option Nat
  batch : Option String
  expiry : Option Int
  deriving Repr, DecidableEq

/-- One submitted order line (`item_data` in `OrderSerializer.create`/`update`):
`quote_item_id`, `cat_num`, `quantity`, `status`, optional `issue_detail` and
the optional `stock_items` list (`None` when the key is absent). -/
structure LineItem where
  quoteItemId : Nat
  cat_num : String
  quantity : Nat
  status : String
  issueDetail : Option String
  stockItems : Option (List StockItemHint)
  deriving Repr, DecidableEq

/-- The database state the reconciliation flow reads and writes.  The
`orderNotifications` table stores product ids (the `OrderNotifications` model
has a single one-to-one `product` field); counters model the auto-increment
primary keys handed out by `create` / `bulk_create`. -/
structure DB where
  products : List ProductRow
  quotes : List QuoteRow
  quoteItems : List QuoteItemRow
  orders : List OrderRow
  orderItems : List OrderItemRow
  stockItems : List StockItemRow
  statistics : List StatisticsRow
  orderNotifications : List Nat
  nextProductId : Nat
  nextOrderId : Nat
  nextOrderItemId : Nat
  nextStockItemId : Nat
  deriving Repr, DecidableEq

/-- `QuoteItem.objects.get(id=...)` of the serializer, as a list lookup. -/
def lookupQuoteItem (st : DB) (i : Nat) : Option QuoteItemRow :=
  st.quoteItems.find? (fun qi => qi.id == i)

/-- Lookup of a quote by primary key (the validated `quote` field of the
serializer, a `PrimaryKeyRelatedField` over `Quote.objects.all()`). -/
def lookupQuote (st : DB) (i : Nat) : Option QuoteRow :=
  st.quotes.find? (fun q => q.id == i)

/-- Lookup of a product by primary key (used for the `quote_item.product`
foreign-key dereference). -/
def lookupProduct (products : List ProductRow) (i : Nat) : Option ProductRow :=
  products.find? (fun p => p.id == i)

/-- Python truthiness of an optional integer (`None` and `0` are falsy):
used for `if current_stock:` and `if stock_adjustment:` in the serializer. -/
def intOptTruthy : Option Int → Bool
  | none => false
  | some v => v != 0

/-- Python truthiness of an optional list (`None` and `[]` are falsy):
used for `if stock_items:`. -/
def hintsTruthy : Option (List StockItemHint) → Bool
  | none => false
  | some l => !l.isEmpty

/-- The expression `item_data['status'] == 'OK' or 'Different amount'` of
`OrderSerializer.create` (order_serializer.py line 181), read in boolean
context: Python `a or b` is truthy iff `a` is truthy or `b` is truthy, and the
non-empty string literal `'Different amount'` is always truthy. -/
def createLineUpdateStock (status : String) : Bool :=
  (status == "OK") || !(("Different amount" : String) == "")

/-- The expression
`item_data['status'] == 'OK' or 'Different amount' or 'Did not arrive'` of
`OrderSerializer.relate_quoteitem_to_orderitem_and_check_quote_fulfillment_update`
(order_serializer.py line 614), read in boolean context. -/
def updateLineStatusTruthy (status : String) : Bool :=
  (status == "OK") || !(("Different amount" : String) == "")
    || !(("Did not arrive" : String) == "")

/-- The validation message raised when a submitted `quote_item_id` matches no
`QuoteItem` row (order_serializer.py lines 190 and 621). -/
def quoteItemMissingMsg (i : Nat) : String :=
  "Quote item with ID " ++ toString i ++ " does not exist"

/-- `OrderSerializer.delete_notification`: delete the `OrderNotifications` row
of the product if one exists (no error when absent). -/
def deleteNotification (notifs : List Nat) (productId : Nat) : List Nat :=
  notifs.filter (fun pid => pid != productId)

/-- The `ProductOrderStatistics` row freshly created by
`ProductOrderStatistics.objects.create(product=product)`: all fields take their
model defaults (`order_count=0`, timestamps null, `avg_order_quantity=0`). -/
def freshStatistics (productId : Nat) : StatisticsRow :=
  { productId := productId
    order_count := 0
    last_ordered := none
    avg_order_time := none
    avg_order_quantity := 0 }

/-- The statistics part of
`OrderSerializer.update_product_statistics_and_quantity_on_create`
(order_serializer.py lines 437-459): increment `order_count`; when the updated
count exceeds 1, fold the new inter-order interval and the received quantity
into the running averages with the source's exact weighting, and stamp
`last_ordered`.  Returns `none` exactly where the Python code would raise a
`TypeError` on `None` arithmetic (subtracting a null `last_ordered`, or
multiplying a null `avg_order_time` when the count exceeds 2). -/
def updateStatisticsOnCreate (s : StatisticsRow) (quantity : Nat) (now : ℚ) :
    Option StatisticsRow :=
  let updatedOrderCount : Int := s.order_count + 1
  if updatedOrderCount > 1 then
    match s.last_ordered with
    | none => none
    | some lastOrdered =>
      let newTimeDelta : ℚ := now - lastOrdered
      let prevTimeAvg? : Option ℚ :=
        if updatedOrderCount > 2 then s.avg_order_time else some newTimeDelta
      match prevTimeAvg? with
      | none => none
      | some prevTimeAvg =>
        let newTimeAvg : ℚ :=
          (prevTimeAvg * ((updatedOrderCount : ℚ) - 1) + newTimeDelta)
            / (updatedOrderCount : ℚ)
        let prevQuantityAvg : ℚ :=
          if updatedOrderCount > 1 then s.avg_order_quantity else 0
        let newQuantityAvg : ℚ :=
          (prevQuantityAvg * ((updatedOrderCount : ℚ) - 1) + (quantity : ℚ))
            / (updatedOrderCount : ℚ)
        some { s with
                order_count := updatedOrderCount
                avg_order_time := some newTimeAvg
                avg_order_quantity := newQuantityAvg
                last_ordered := some now }
  else
    some { s with order_count := updatedOrderCount, last_ordered := some now }

/-- The stock part of `update_product_statistics_and_quantity_on_create`
(order_serializer.py lines 462-469): `if current_stock: stock += q else:
stock = q` — note the Python-truthiness test, under which a stored stock of 0
takes the `else` branch. -/
def addReceivedToStock (stock : Option Int) (quantity : Nat) : Int :=
  if intOptTruthy stock then stock.getD 0 + (quantity : Int) else (quantity : Int)

/-- Replace the statistics row of a product, or append it when the product had
none yet (the fetch-or-create plus final `save()` of
`update_product_statistics_and_quantity_on_create`). -/
def upsertStatistics (stats : List StatisticsRow) (row : StatisticsRow) :
    List StatisticsRow :=
  if stats.any (fun r => r.productId == row.productId) then
    stats.map (fun r => if r.productId == row.productId then row else r)
  else
    stats ++ [row]

/-- The field defaults used by the `get_or_create` of
`create_inventory_product_or_update_statistics_and_quantity`
(order_serializer.py lines 522-543): when a supplier-catalogue product with the
same catalogue number exists, its descriptive fields seed the new inventory
product; otherwise the `defaults` dictionary is empty and the new row keeps the
model defaults (empty strings / nulls).  The new row always has
`supplier_cat_item=False` and a null stock. -/
def inventoryDefaults (catalogueProduct : Option ProductRow) (cat_num : String)
    (newId : Nat) : ProductRow :=
  match catalogueProduct with
  | some c =>
    { id := newId, cat_num := cat_num, supplier_cat_item := false
      name := c.name, category := c.category, unit := c.unit
      unit_quantity := c.unit_quantity, stock := none, storage := c.storage
      price := c.price, url := c.url, manufacturerId := c.manufacturerId
      supplierId := c.supplierId }
  | none =>
    { id := newId, cat_num := cat_num, supplier_cat_item := false
      name := "", category := "", unit := "", unit_quantity := none
      stock := none, storage := "", price := none, url := none
      manufacturerId := none, supplierId := none }

/-- `OrderSerializer.create_inventory_product_or_update_statistics_and_quantity`
(order_serializer.py lines 497-560).  Looks up the supplier-catalogue product
(`supplier_cat_item=True`) for the defaults, then gets or creates the inventory
product (`supplier_cat_item=False`) for the same catalogue number.  When the
row was just created and `update_stock` is truthy, its stock is set to the
received quantity.  When the row already existed, its pending order
notification is deleted and `update_product_statistics_and_quantity_on_create`
is applied.  The `quote_quantity` parameter is accepted and never read, exactly
as in the source.  Returns the inventory product and the new state, or an error
where the statistics update would raise. -/
def createInventoryProductOrUpdateStatisticsAndQuantity (st : DB)
    (cat_num : String) (receivedQuantity : Nat) (quoteQuantity : Nat)
    (updateStock : Bool) (now : ℚ) : Except String (ProductRow × DB) :=
  let _ := quoteQuantity
  let catalogueProduct :=
    st.products.find? (fun p => p.cat_num == cat_num && p.supplier_cat_item == true)
  match st.products.find? (fun p => p.cat_num == cat_num && p.supplier_cat_item == false) with
  | none =>
    let base := inventoryDefaults catalogueProduct cat_num st.nextProductId
    let created :=
      if updateStock then { base with stock := some (receivedQuantity : Int) } else base
    Except.ok (created,
      { st with
          products := st.products ++ [created]
          nextProductId := st.nextProductId + 1 })
  | some inventoryProduct =>
    let st1 :=
      { st with orderNotifications := deleteNotification st.orderNotifications inventoryProduct.id }
    let statsRow :=
      match st1.statistics.find? (fun r => r.productId == inventoryProduct.id) with
      | some r => r
      | none => freshStatistics inventoryProduct.id
    match updateStatisticsOnCreate statsRow receivedQuantity now with
    | none => Except.error "TypeError: unsupported operand type for NoneType"
    | some statsRow' =>
      let product' :=
        if updateStock then
          { inventoryProduct with stock := some (addReceivedToStock inventoryProduct.stock receivedQuantity) }
        else inventoryProduct
      let st2 :=
        { st1 with
            products := st1.products.map (fun p => if p.id == inventoryProduct.id then product' else p)
            statistics := upsertStatistics st1.statistics statsRow' }
      Except.ok (product', st2)

/-- `OrderSerializer.relate_quoteitem_to_orderitem_and_check_quote_fulfillment_create`
(order_serializer.py lines 562-594): create the `OrderItem` bound to the order
and quote item, copy the quote item's price onto the quote item's product, and
report whether the line is fulfilled (`quote_item.quantity == order_item.quantity
and order_item.status == 'OK'`).  The product dereference is a non-null foreign
key in Django; a dangling reference is modelled as an error. -/
def relateQuoteitemToOrderitemCreate (st : DB) (order : OrderRow)
    (line : LineItem) (quoteItem : QuoteItemRow) :
    Except String (Bool × OrderItemRow × DB) :=
  let orderItem : OrderItemRow :=
    { id := st.nextOrderItemId, orderId := order.id
      quoteItemId := some quoteItem.id, quantity := line.quantity
      status := line.status, issueDetail := line.issueDetail }
  match lookupProduct st.products quoteItem.productId with
  | none => Except.error "Product matching query does not exist"
  | some product =>
    let product' := { product with price := quoteItem.price }
    let st1 :=
      { st with
          orderItems := st.orderItems ++ [orderItem]
          nextOrderItemId := st.nextOrderItemId + 1
          products := st.products.map (fun p => if p.id == product.id then product' else p) }
    if quoteItem.quantity != orderItem.quantity || orderItem.status != "OK" then
      Except.ok (false, orderItem, st1)
    else
      Except.ok (true, orderItem, st1)

/-- `OrderSerializer.create_or_delete_stock_items`
(order_serializer.py lines 686-765).  Positive `quantity`: create that many
stock items, using the submitted batch/expiry hints for the first
`min(quantity, len(stock_items))` of them and anonymous rows for the rest.
Non-positive `quantity`: when hints were submitted, the hinted-deletion loop
runs `range(min(quantity, len(stock_items)))` times — an empty range, since
`quantity` is negative — and the fallback branch fires only when
`abs(quantity) > len(stock_items)`, in which case it deletes every stock item
of the product/order-item pair (the queryset is not sliced); when no hints were
submitted, the first `abs(quantity)` matching rows are deleted. -/
def createOrDeleteStockItems (st : DB) (stockItems : Option (List StockItemHint))
    (productId : Nat) (orderItemId : Option Nat) (quantity : Int) : DB :=
  if quantity > 0 then
    let specs : List (Option String × Option Int) :=
      if hintsTruthy stockItems then
        let hints := stockItems.getD []
        let hinted :=
          (hints.take (min quantity (hints.length : Int)).toNat).map
            (fun h => (h.batch, h.expiry))
        let additionalItemsCount : Int := quantity - (hints.length : Int)
        let additional : List (Option String × Option Int) :=
          if additionalItemsCount > 0 then
            (List.range additionalItemsCount.toNat).map (fun _ => (none, none))
          else []
        hinted ++ additional
      else
        (List.range quantity.toNat).map (fun _ => (none, none))
    let newRows :=
      specs.enum.map (fun e =>
        { id := st.nextStockItemId + e.1, productId := productId
          orderItemId := orderItemId, batch := e.2.1, expiry := e.2.2 : StockItemRow })
    { st with
        stockItems := st.stockItems ++ newRows
        nextStockItemId := st.nextStockItemId + specs.length }
  else
    let toDelete : List StockItemRow :=
      if hintsTruthy stockItems then
        let hints := stockItems.getD []
        let hintedDeletes :=
          (hints.take (min quantity (hints.length : Int)).toNat).map
            (fun h =>
              st.stockItems.filter (fun r =>
                r.productId == productId && r.orderItemId == orderItemId
                  && r.batch == h.batch && r.expiry == h.expiry))
        let additionalItemsCount : Int := (quantity.natAbs : Int) - (hints.length : Int)
        let additionalItems :=
          if additionalItemsCount > 0 then
            st.stockItems.filter (fun r =>
              r.productId == productId && r.orderItemId == orderItemId)
          else []
        hintedDeletes.flatten ++ additionalItems
      else
        (st.stockItems.filter (fun r =>
          r.productId == productId && r.orderItemId == orderItemId)).take quantity.natAbs
    { st with
        stockItems := st.stockItems.filter (fun r => !(toDelete.any (fun d => d.id == r.id))) }

/-- `OrderSerializer.is_quote_fulfilled` (order_serializer.py lines 667-684):
set the quote's status to `FULFILLED` when every line was fulfilled and to
`ARRIVED, UNFULFILLED` otherwise, and save it. -/
def isQuoteFulfilledApply (quotes : List QuoteRow) (quoteId : Nat)
    (quoteFulfilled : Bool) : List QuoteRow :=
  quotes.map (fun q =>
    if q.id == quoteId then
      { q with status := if !quoteFulfilled then "ARRIVED, UNFULFILLED" else "FULFILLED" }
    else q)

/-- Processing of one submitted line inside the loop of `OrderSerializer.create`
(order_serializer.py lines 179-217): compute the truthy `status` flag, resolve
the quote item (validation error naming the id when absent), create or update
the inventory product, create the order item and determine line fulfillment,
then create or delete stock items for the received quantity. -/
def processCreateLine (st : DB) (order : OrderRow) (line : LineItem) (now : ℚ) :
    Except String (DB × Bool) :=
  let updateStock := createLineUpdateStock line.status
  match lookupQuoteItem st line.quoteItemId with
  | none => Except.error (quoteItemMissingMsg line.quoteItemId)
  | some quoteItem =>
    match createInventoryProductOrUpdateStatisticsAndQuantity st line.cat_num
        line.quantity quoteItem.quantity updateStock now with
    | Except.error e => Except.error e
    | Except.ok (inventoryProduct, st1) =>
      match relateQuoteitemToOrderitemCreate st1 order line quoteItem with
      | Except.error e => Except.error e
      | Except.ok (fulfilled, orderItem, st2) =>
        let st3 := createOrDeleteStockItems st2 line.stockItems inventoryProduct.id
          (some orderItem.id) (line.quantity : Int)
        Except.ok (st3, fulfilled)

/-- The loop of `OrderSerializer.create` over the submitted lines, threading the
database state and the `quote_fulfilled` flag (`if not quote_item_fulfilled and
quote_fulfilled: quote_fulfilled = False`). -/
def processCreateLines (st : DB) (order : OrderRow) (quoteFulfilled : Bool)
    (lines : List LineItem) (now : ℚ) : Except String (DB × Bool) :=
  match lines with
  | [] => Except.ok (st, quoteFulfilled)
  | line :: rest =>
    match processCreateLine st order line now with
    | Except.error e => Except.error e
    | Except.ok (st1, fulfilled) =>
      let quoteFulfilled1 := if !fulfilled && quoteFulfilled then false else quoteFulfilled
      processCreateLines st1 order quoteFulfilled1 rest now

/-- The payload of a `create_order` / `update_order` request: the validated
quote primary key, the order header fields and the parsed `items` JSON list.
Image handling delegates to the external object-storage collaborator and is out
of the modelled core. -/
structure OrderRequest where
  quoteId : Nat
  arrivalDate : Int
  receivedBy : Option String
  items : List LineItem
  deriving Repr, DecidableEq

/-- `OrderSerializer.create` (order_serializer.py lines 145-235) without the
image side channel: validate the quote reference, insert the `Order` row,
process every line, then persist the quote's fulfillment status. -/
def orderCreate (st : DB) (req : OrderRequest) (now : ℚ) : Except String DB :=
  match lookupQuote st req.quoteId with
  | none => Except.error ("Invalid pk " ++ toString req.quoteId)
  | some _relatedQuote =>
    let order : OrderRow :=
      { id := st.nextOrderId, quoteId := some req.quoteId
        arrivalDate := req.arrivalDate, receivedBy := req.receivedBy }
    let st1 := { st with orders := st.orders ++ [order], nextOrderId := st.nextOrderId + 1 }
    match processCreateLines st1 order true req.items now with
    | Except.error e => Except.error e
    | Except.ok (st2, quoteFulfilled) =>
      Except.ok { st2 with quotes := isQuoteFulfilledApply st2.quotes req.quoteId quoteFulfilled }

/-- The `@transaction.atomic` wrapper around `OrderSerializer.create`
(order_serializer.py line 145): an exception anywhere in the body rolls every
mutation back, so the caller observes the pre-call state on failure. -/
def orderCreateAtomic (st : DB) (req : OrderRequest) (now : ℚ) : DB :=
  match orderCreate st req now with
  | Except.ok st' => st'
  | Except.error _ => st

/-- `OrderSerializer.update_stock_items` (order_serializer.py lines 767-784):
for each submitted entry carrying an `id`, overwrite that stock item's batch
and expiry in place (absent keys overwrite with null).  `StockItem.objects.get`
raises when the id matches no row. -/
def updateStockItems (st : DB) (hints : List StockItemHint) : Except String DB :=
  match hints with
  | [] => Except.ok st
  | h :: rest =>
    match h.hintId with
    | none => Except.error "KeyError: id"
    | some i =>
      if st.stockItems.any (fun r => r.id == i) then
        let st1 :=
          { st with
              stockItems := st.stockItems.map (fun r =>
                if r.id == i then { r with batch := h.batch, expiry := h.expiry } else r) }
        updateStockItems st1 rest
      else
        Except.error "StockItem matching query does not exist"

/-- `OrderSerializer.update_product_stock_on_update`
(order_serializer.py lines 474-495): when the new quantity differs from the
order item's stored quantity, add the difference to the product's stock and
return it; otherwise return `None`.  Adding to a null stock raises in Python,
modelled as an error. -/
def updateProductStockOnUpdate (stock : Option Int) (newQuantity : Nat)
    (orderItemQuantity : Nat) : Except String (Option Int × Option Int) :=
  if orderItemQuantity != newQuantity then
    let stockAdjustment : Int := (newQuantity : Int) - (orderItemQuantity : Int)
    match stock with
    | none => Except.error "TypeError: unsupported operand type for NoneType"
    | some s => Except.ok (some stockAdjustment, some (s + stockAdjustment))
  else
    Except.ok (none, stock)

/-- `OrderSerializer.relate_quoteitem_to_orderitem_and_check_quote_fulfillment_update`
(order_serializer.py lines 596-665).  Computes the always-truthy `status` flag,
resolves the quote item (validation error naming the id when absent), fetches
the matching order item and the quote item's product, updates any submitted
stock items that carry an id, and — when the submitted quantity differs from
the stored one — adjusts the product stock and reconciles stock items.  The
local `new_stock_items` is only bound inside `if stock_items:`, so reaching the
`create_or_delete_stock_items` call without submitted hints raises a
`NameError`, modelled here by tracking the variable as an `Option` that is
`none` when the binding never happened.  Finally every submitted field is
copied onto the order item and the line's fulfillment is reported. -/
def relateQuoteitemToOrderitemUpdate (st : DB) (instanceOrderId : Nat)
    (line : LineItem) : Except String (DB × Bool) :=
  let status := updateLineStatusTruthy line.status
  match lookupQuoteItem st line.quoteItemId with
  | none => Except.error (quoteItemMissingMsg line.quoteItemId)
  | some quoteItem =>
    match st.orderItems.find? (fun oi =>
        oi.orderId == instanceOrderId && oi.quoteItemId == some quoteItem.id) with
    | none => Except.error "OrderItem matching query does not exist"
    | some orderItem =>
      match lookupProduct st.products quoteItem.productId with
      | none => Except.error "Product matching query does not exist"
      | some product =>
        let orderItemQuantity := orderItem.quantity
        let itemQuantity := line.quantity
        let stockItems := line.stockItems
        let step1 : Except String (DB × Option (List StockItemHint)) :=
          if hintsTruthy stockItems then
            let hints := stockItems.getD []
            let newStockItems := hints.filter (fun h => h.hintId == none)
            let existingStockItems := hints.filter (fun h => !(h.hintId == none))
            match updateStockItems st existingStockItems with
            | Except.error e => Except.error e
            | Except.ok st1 => Except.ok (st1, some newStockItems)
          else
            Except.ok (st, none)
        match step1 with
        | Except.error e => Except.error e
        | Except.ok (st1, newStockItems) =>
          let step2 : Except String DB :=
            if status && itemQuantity != orderItem.quantity then
              match updateProductStockOnUpdate product.stock itemQuantity orderItemQuantity with
              | Except.error e => Except.error e
              | Except.ok (stockAdjustment, newStock) =>
                let st2 :=
                  { st1 with
                      products := st1.products.map (fun p =>
                        if p.id == product.id then { p with stock := newStock } else p) }
                if intOptTruthy stockAdjustment then
                  match newStockItems with
                  | none => Except.error "NameError: name new_stock_items is not defined"
                  | some ns =>
                    Except.ok (createOrDeleteStockItems st2 (some ns) quoteItem.productId
                      (some orderItem.id) (stockAdjustment.getD 0))
                else
                  Except.ok st2
            else
              Except.ok st1
          match step2 with
          | Except.error e => Except.error e
          | Except.ok st3 =>
            let orderItem' :=
              { orderItem with
                  quoteItemId := some line.quoteItemId
                  quantity := line.quantity
                  status := line.status
                  issueDetail := line.issueDetail }
            let st4 :=
              { st3 with
                  orderItems := st3.orderItems.map (fun oi =>
                    if oi.id == orderItem.id then orderItem' else oi) }
            if quoteItem.quantity != orderItem'.quantity || orderItem'.status != "OK" then
              Except.ok (st4, false)
            else
              Except.ok (st4, true)

/-- The loop of `OrderSerializer.update` over the submitted lines, threading the
state and the `quote_fulfilled` flag exactly as the create loop does. -/
def processUpdateLines (st : DB) (instanceOrderId : Nat) (quoteFulfilled : Bool)
    (lines : List LineItem) : Except String (DB × Bool) :=
  match lines with
  | [] => Except.ok (st, quoteFulfilled)
  | line :: rest =>
    match relateQuoteitemToOrderitemUpdate st instanceOrderId line with
    | Except.error e => Except.error e
    | Except.ok (st1, fulfilled) =>
      let quoteFulfilled1 := if !fulfilled && quoteFulfilled then false else quoteFulfilled
      processUpdateLines st1 instanceOrderId quoteFulfilled1 rest

/-- `OrderSerializer.update` (order_serializer.py lines 237-296) without the
image side channel: validate the quote reference, process every line, persist
the quote's fulfillment status, then save the updated order header. -/
def orderUpdate (st : DB) (instanceOrderId : Nat) (req : OrderRequest) :
    Except String DB :=
  match lookupQuote st req.quoteId with
  | none => Except.error ("Invalid pk " ++ toString req.quoteId)
  | some _relatedQuote =>
    match processUpdateLines st instanceOrderId true req.items with
    | Except.error e => Except.error e
    | Except.ok (st1, quoteFulfilled) =>
      let st2 := { st1 with quotes := isQuoteFulfilledApply st1.quotes req.quoteId quoteFulfilled }
      Except.ok
        { st2 with
            orders := st2.orders.map (fun o =>
              if o.id == instanceOrderId then
                { o with quoteId := some req.quoteId, arrivalDate := req.arrivalDate
                         receivedBy := req.receivedBy }
              else o) }

/-- The `@transaction.atomic` wrapper around `OrderSerializer.update`
(order_serializer.py line 237). -/
def orderUpdateAtomic (st : DB) (instanceOrderId : Nat) (req : OrderRequest) : DB :=
  match orderUpdate st instanceOrderId req with
  | Except.ok st' => st'
  | Except.error _ => st

/-- The loop-body condition of `refresh_order_notifications`
(tasks.py lines 69-72): the stored average order interval has elapsed since
`last_ordered`, or half the average order quantity exceeds the product's
current stock (each branch guarded by the `is not None` checks of the source;
`avg_order_quantity` is a non-nullable column, so its check is always true). -/
def orderNotifCondition (now : ℚ) (s : StatisticsRow) (product : ProductRow) : Bool :=
  (match s.avg_order_time, s.last_ordered with
   | some avgTime, some lastOrdered => decide (avgTime < now - lastOrdered)
   | _, _ => false)
  || (match product.stock with
      | some stock => decide (s.avg_order_quantity / 2 > (stock : ℚ))
      | none => false)

/-- The loop body of `refresh_order_notifications` for one statistics row:
dereference `product_stats.product` (a non-null foreign key; a dangling
reference selects nothing) and test `orderNotifCondition`. -/
def orderNotifRowSelected (now : ℚ) (products : List ProductRow)
    (s : StatisticsRow) : Bool :=
  match lookupProduct products s.productId with
  | none => false
  | some product => orderNotifCondition now s product

/-- `refresh_order_notifications` (tasks.py lines 39-74): select the statistics
rows whose `avg_order_time` or `avg_order_quantity` is non-null (the latter
column is non-nullable, so the disjunct is constantly true and every row is
selected), delete all `OrderNotifications` — the prior notification table is
discarded wholesale — then create one notification per selected row whose
product satisfies `orderNotifCondition`. -/
def refreshOrderNotifications (now : ℚ) (stats : List StatisticsRow)
    (products : List ProductRow) (notifs : List Nat) : List Nat :=
  let relevantProducts := stats.filter (fun s => s.avg_order_time.isSome || true)
  let _ := notifs
  (relevantProducts.filter (orderNotifRowSelected now products)).map
    (fun s => s.productId)

/-- The queryset condition of `create_expiry_notifications`
(tasks.py lines 92-93): `Q(expiry__range=(current_date, expiry_date)) |
Q(expiry__lt=current_date) & Q(expirynotifications__isnull=True)` with
`expiry_date = current_date + 180 days`.  Python's `&` binds tighter than `|`,
so the no-existing-notification conjunct applies only to the already-expired
branch; an item inside the lookahead window is selected even when it already
has a notification.  A null expiry matches neither lookup. -/
def expiryNotificationSelected (currentDate : Int) (item : StockItemRow)
    (notifiedIds : List Nat) : Bool :=
  match item.expiry with
  | none => false
  | some e =>
    (decide (currentDate ≤ e) && decide (e ≤ currentDate + 180))
      || (decide (e < currentDate) && !(notifiedIds.contains item.id))

/-- The creation loop of `create_expiry_notifications` (tasks.py lines 96-97):
one `ExpiryNotifications.objects.create` per selected item.  `ExpiryNotifications`
holds a `OneToOneField` to the stock item (product.py line 239), so creating a
second notification for the same stock item violates the unique constraint and
raises, modelled as an error. -/
def createExpiryLoop (selected : List StockItemRow) (notifs : List Nat) :
    Except String (List Nat) :=
  match selected with
  | [] => Except.ok notifs
  | item :: rest =>
    if notifs.contains item.id then
      Except.error "IntegrityError: duplicate expiry notification for stock item"
    else
      createExpiryLoop rest (notifs ++ [item.id])

/-- `create_expiry_notifications` (tasks.py lines 77-97): filter the stock items
with the (mis-parenthesised) queryset condition, then create one expiry
notification per selected item. -/
def createExpiryNotifications (currentDate : Int) (stockItems : List StockItemRow)
    (notifs : List Nat) : Except String (List Nat) :=
  let relevantStockItems :=
    stockItems.filter (fun it => expiryNotificationSelected currentDate it notifs)
  createExpiryLoop relevantStockItems notifs

/-- The membership test the specification intends for "counts toward stock":
`status in {OK, "Different amount"}` (spec section 4.2 step b and section 9). -/
def countsTowardStockSpec (status : String) : Bool :=
  (status == "OK") || (status == "Different amount")

/-- The field-level uniqueness constraint on `Product.cat_num`
(`unique=True`, product.py line 87): no two product rows share a catalogue
number. -/
def productCatNumUnique (rows : List ProductRow) : Prop :=
  (rows.map (fun r => r.cat_num)).Nodup

/-- The table-level constraint `unique_together = ('cat_num', 'supplier_cat_item')`
(product.py line 123): at most one product row per (catalogue number,
supplier-catalogue flag) pair. -/
def productPairUnique (rows : List ProductRow) : Prop :=
  (rows.map (fun r => (r.cat_num, r.supplier_cat_item))).Nodup

/-- A product table is admissible exactly when it satisfies every declared
constraint of the `Product` model: the field-level `unique=True` on `cat_num`
and the `unique_together` pair constraint. -/
def productTableAdmissible (rows : List ProductRow) : Prop :=
  productCatNumUnique rows ∧ productPairUnique rows

/-- The selection rule the specification states for expiry notifications:
expiry within `[today, today+180]` or already past, and no existing
`ExpiryNotifications` row (spec section 4.5 and Scenario C). -/
def expiryNotificationSelectedSpec (currentDate : Int) (item : StockItemRow)
    (notifiedIds : List Nat) : Bool :=
  match item.expiry with
  | none => false
  | some e =>
    ((decide (currentDate ≤ e) && decide (e ≤ currentDate + 180))
        || decide (e < currentDate))
      && !(notifiedIds.contains item.id)

/-- Line fulfillment as computed from the submitted line against a quote-item
table: the referenced quote item exists, its quantity equals the submitted
quantity, and the submitted status is `OK` (order_serializer.py line 590). -/
def lineFulfilledB (qis : List QuoteItemRow) (line : LineItem) : Bool :=
  match qis.find? (fun qi => qi.id == line.quoteItemId) with
  | none => false
  | some qi => qi.quantity == line.quantity && line.status == "OK"

/-- The fulfillment condition of the claim, stated over the pre-call state:
every submitted line references an existing quote item whose quantity equals
the submitted quantity, with submitted status `OK`. -/
def allLinesFulfilledSpec (st : DB) (lines : List LineItem) : Prop :=
  ∀ line ∈ lines, ∃ qi, lookupQuoteItem st line.quoteItemId = some qi ∧
    line.quantity = qi.quantity ∧ line.status = "OK"

/-- The reorder-notification condition of the claim, stated relationally: the
statistics row has both `avg_order_time` and `last_ordered` set with the
average interval already elapsed, or half its `avg_order_quantity` exceeds the
product's current (non-null) stock. -/
def orderNotifQualifiesSpec (now : ℚ) (products : List ProductRow)
    (s : StatisticsRow) : Prop :=
  (∃ a l, s.avg_order_time = some a ∧ s.last_ordered = some l ∧ a < now - l) ∨
  (∃ p, lookupProduct products s.productId = some p ∧
    ∃ stock, p.stock = some stock ∧ s.avg_order_quantity / 2 > (stock : ℚ))

/-- Sanity of a statistics row as maintained by the reconciliation flow itself:
once at least one order was recorded `last_ordered` is set, and once at least
two were recorded `avg_order_time` is set. -/
def statsSane (s : StatisticsRow) : Prop :=
  (1 ≤ s.order_count → s.last_ordered.isSome = true) ∧
  (2 ≤ s.order_count → s.avg_order_time.isSome = true)

/-- Referential integrity and statistics sanity of a database state: every
quote item's product exists (a non-null foreign key in the schema) and every
statistics row is sane. -/
def dbWellFormed (st : DB) : Prop :=
  (∀ qi ∈ st.quoteItems, ∃ p ∈ st.products, p.id = qi.productId) ∧
  (∀ s ∈ st.statistics, statsSane s)

/-- Number of stock items recorded for a product / order-item pair. -/
def stockCountFor (st : DB) (productId : Nat) (orderItemId : Option Nat) : Nat :=
  (st.stockItems.filter (fun r =>
    r.productId == productId && r.orderItemId == orderItemId)).length

/-- An empty database with auto-increment counters at 1. -/
def dbEmpty : DB :=
  { products := [], quotes := [], quoteItems := [], orders := [], orderItems := []
    stockItems := [], statistics := [], orderNotifications := []
    nextProductId := 1, nextOrderId := 1, nextOrderItemId := 1, nextStockItemId := 1 }

/-- A concrete product row used by the worked examples (descriptive fields as
in the repository's own sample-data management command). -/
def sampleProduct (id : Nat) (cat_num : String) (supplierCatItem : Bool)
    (stock : Option Int) : ProductRow :=
  { id := id, cat_num := cat_num, supplier_cat_item := supplierCatItem
    name := "Sample Product", category := "Medium", unit := "L"
    unit_quantity := some 1, stock := stock, storage := "+4"
    price := some 100, url := none, manufacturerId := none, supplierId := some 1 }

/-- State for the always-counts example: one inventory product with stock 10
and no statistics row. -/
def c1Db : DB :=
  { dbEmpty with products := [sampleProduct 1 "CAT-1" false (some 10)], nextProductId := 2 }

/-- The supplier-catalogue listing of catalogue number CAT-001. -/
def c2CatalogueRow : ProductRow := sampleProduct 1 "CAT-001" true none

/-- The buyer's inventory record of the same catalogue number CAT-001. -/
def c2InventoryRow : ProductRow := sampleProduct 2 "CAT-001" false (some 10)

/-- State for the quote-fulfillment example: one quote, one quote item for
quantity 10, the supplier-catalogue product, and no inventory product yet. -/
def c3Db : DB :=
  { dbEmpty with
      products := [sampleProduct 1 "CAT-1" true none]
      quotes := [{ id := 1, supplierId := 1, status := "RECEIVED" }]
      quoteItems := [{ id := 1, quoteId := 1, productId := 1, quantity := 10, price := some 5 }]
      nextProductId := 2 }

/-- A fully matching order request against `c3Db`: one line for the quoted
quantity with status `OK`. -/
def c3Req : OrderRequest :=
  { quoteId := 1, arrivalDate := 0, receivedBy := some "r"
    items := [{ quoteItemId := 1, cat_num := "CAT-1", quantity := 10, status := "OK"
                issueDetail := none, stockItems := none }] }

/-- The state produced by the successful creation of `c3Req` against `c3Db`. -/
def c3Result : DB :=
  match orderCreate c3Db c3Req 0 with
  | Except.ok st => st
  | Except.error _ => c3Db

/-- A statistics row after exactly one recorded order (the second order will
make `order_count` reach 2). -/
def c4Stats : StatisticsRow :=
  { productId := 1, order_count := 1, last_ordered := some 0
    avg_order_time := none, avg_order_quantity := 10 }

/-- State for the missing-quote-item example: one quote and nothing else. -/
def c5Db : DB :=
  { dbEmpty with quotes := [{ id := 7, supplierId := 1, status := "RECEIVED" }] }

/-- An order request whose single line references the nonexistent quote item 42. -/
def c5Req : OrderRequest :=
  { quoteId := 7, arrivalDate := 0, receivedBy := none
    items := [{ quoteItemId := 42, cat_num := "CAT-9", quantity := 3, status := "OK"
                issueDetail := none, stockItems := none }] }

/-- State for the update-path counterexample: a complete order for quote item 1
(quantity 10) that can be re-submitted with a changed quantity. -/
def c5uDb : DB :=
  { dbEmpty with
      products := [sampleProduct 1 "CAT-1" true (some 10)]
      quotes := [{ id := 1, supplierId := 1, status := "FULFILLED" }]
      quoteItems := [{ id := 1, quoteId := 1, productId := 1, quantity := 10, price := some 5 }]
      orders := [{ id := 1, quoteId := some 1, arrivalDate := 0, receivedBy := none }]
      orderItems := [{ id := 1, orderId := 1, quoteItemId := some 1, quantity := 10
                       status := "OK", issueDetail := none }]
      nextProductId := 2, nextOrderId := 2, nextOrderItemId := 2 }

/-- An update request whose first line changes a quantity without submitting
stock items and whose second line references the nonexistent quote item 99. -/
def c5uReq : OrderRequest :=
  { quoteId := 1, arrivalDate := 0, receivedBy := none
    items := [{ quoteItemId := 1, cat_num := "CAT-1", quantity := 12, status := "OK"
                issueDetail := none, stockItems := none },
              { quoteItemId := 99, cat_num := "CAT-1", quantity := 1, status := "OK"
                issueDetail := none, stockItems := none }] }

/-- A stock item expiring 30 days after the current date. -/
def c6Item : StockItemRow :=
  { id := 1, productId := 1, orderItemId := none, batch := none, expiry := some 30 }

/-- Scenario D statistics row: average order interval 10 days, last ordered 15
days ago (times in days before `now = 15`). -/
def c7Stats : StatisticsRow :=
  { productId := 1, order_count := 3, last_ordered := some 0
    avg_order_time := some 10, avg_order_quantity := 4 }

/-- The product of the Scenario D statistics row, with ample stock. -/
def c7Product : ProductRow := sampleProduct 1 "CAT-1" false (some 100)

/-- State for the new-inventory-product example: the supplier-catalogue listing
exists, the inventory counterpart does not, and no statistics exist. -/
def c8Db : DB :=
  { dbEmpty with products := [sampleProduct 1 "CAT-001" true none], nextProductId := 2 }

/-- A submitted stock-item hint carrying only a batch label. -/
def c9Hint : StockItemHint := { hintId := none, batch := some "B1", expiry := none }

/-- The state after applying a stock delta of +1 with the batch hint to an
empty ledger, for the product/order-item pair (1, 1). -/
def c9AfterPlus : DB := createOrDeleteStockItems dbEmpty (some [c9Hint]) 1 (some 1) 1

/-- The state after then applying a stock delta of -1 with the same hint. -/
def c9AfterMinus : DB := createOrDeleteStockItems c9AfterPlus (some [c9Hint]) 1 (some 1) (-1)

/-- State for the unbound-variable example: a reconciled order whose line can be
re-submitted with a different quantity and no stock-item hints. -/
def c10Db : DB := c5uDb

/-- An update line that changes the quantity of order item 1 from 10 to 12 and
submits no stock items. -/
def c10Line : LineItem :=
  { quoteItemId := 1, cat_num := "CAT-1", quantity := 12, status := "OK"
    issueDetail := none, stockItems := none }

/-- The new inventory product created from empty or catalogue defaults always
carries `supplier_cat_item=False` and the requested catalogue number. -/
theorem inventoryDefaults_fields (c : Option ProductRow) (n : String) (i : Nat) :
    (inventoryDefaults c n i).supplier_cat_item = false ∧
      (inventoryDefaults c n i).cat_num = n := by
  cases c <;> simp [inventoryDefaults]

/-- C1: the claim states that a line counts toward stock iff its status is `OK`
or `Different amount`.  The source expression `item_data['status'] == 'OK' or
'Different amount'` is truthy for every status, so a line with status
`Did not arrive` also counts toward stock: at a concrete state its inventory
product's stock moves from 10 to 15 although the claim requires it unchanged. -/
theorem claim_C1_status_always_counts :
    createLineUpdateStock "Did not arrive" = true ∧
    countsTowardStockSpec "Did not arrive" = false ∧
    (createInventoryProductOrUpdateStatisticsAndQuantity c1Db "CAT-1" 5 5
        (createLineUpdateStock "Did not arrive") 0).toOption.map (fun r => r.1.stock)
      = some (some 15) :=
  ⟨by decide, by decide, by rfl⟩

/-- C2: the claim states that two product rows may share a catalogue number
(one catalogue listing, one inventory record) while the pair
(cat_num, supplier_cat_item) stays unique.  The model forbids this: `cat_num`
itself is declared `unique=True`, so the two-row table below satisfies the pair
constraint yet violates the declared field constraint and is not admissible. -/
theorem claim_C2_cat_num_globally_unique :
    c2CatalogueRow.cat_num = c2InventoryRow.cat_num ∧
    c2CatalogueRow.supplier_cat_item = true ∧
    c2InventoryRow.supplier_cat_item = false ∧
    productPairUnique [c2CatalogueRow, c2InventoryRow] ∧
    ¬ productTableAdmissible [c2CatalogueRow, c2InventoryRow] := by
  refine ⟨by decide, by decide, by decide, by unfold productPairUnique; decide, ?_⟩
  intro h
  exact absurd h.1 (by unfold productCatNumUnique; decide)

/-- C6: the claim states that the expiry refresh only selects stock items with
no existing notification, so a second run creates no duplicate and succeeds.
With the source's operator precedence the no-existing-notification filter
applies only to the already-expired branch: an in-window item that is already
flagged is selected again (the spec-side selection says it must not be), and
the resulting duplicate one-to-one creation makes the second run fail. -/
theorem claim_C6_second_run_duplicates :
    expiryNotificationSelected 0 c6Item [1] = true ∧
    expiryNotificationSelectedSpec 0 c6Item [1] = false ∧
    createExpiryNotifications 0 [c6Item] [1]
      = Except.error "IntegrityError: duplicate expiry notification for stock item" :=
  ⟨by decide, by decide, by rfl⟩

/-- C9: the claim states that a stock delta of +n followed by -n with the same
hints restores the stock-item count, the negative call deleting exactly
abs(delta) rows.  With one hinted row and n = 1 the negative branch iterates
`range(min(-1, 1))` — an empty range — and its fallback needs
`abs(quantity) > len(stock_items)`, so nothing is deleted: the pre-delta count
was 0, yet after +1 then -1 it is still 1. -/
theorem claim_C9_delta_not_symmetric :
    stockCountFor dbEmpty 1 (some 1) = 0 ∧
    stockCountFor c9AfterPlus 1 (some 1) = 1 ∧
    stockCountFor c9AfterMinus 1 (some 1) = 1 :=
  ⟨by rfl, by rfl, by rfl⟩

/-- C8 (counterexample): the claim states that reconciling a line for a
catalogue number with no inventory product creates the product with the
received stock *and* a `ProductOrderStatistics` row with `order_count = 1`.
At a concrete state with the catalogue listing present and no statistics, the
call creates the inventory product with stock 10 but leaves the statistics
table empty — no statistics row is created for a newly created product. -/
theorem claim_C8_no_statistics_created :
    (createInventoryProductOrUpdateStatisticsAndQuantity c8Db "CAT-001" 10 10
        (createLineUpdateStock "OK") 0).toOption.map
      (fun r => (r.1.supplier_cat_item, r.1.cat_num, r.1.stock, r.2.statistics))
      = some (false, "CAT-001", some 10, []) := by rfl

/-- C8 (amended): when no inventory product exists for the catalogue number and
the line has status `OK`, a new inventory product (`supplier_cat_item=False`)
is created with stock equal to the received quantity and appended to the
product table, and the statistics table is left unchanged — no
`ProductOrderStatistics` row is created by this call. -/
theorem claim_C8_new_product_stock_no_stats (st : DB) (catNum : String)
    (q quoteQ : Nat) (now : ℚ)
    (hnone : st.products.find?
        (fun p => p.cat_num == catNum && p.supplier_cat_item == false) = none) :
    ∃ p st', createInventoryProductOrUpdateStatisticsAndQuantity st catNum q quoteQ
        (createLineUpdateStock "OK") now = Except.ok (p, st') ∧
      p.supplier_cat_item = false ∧ p.cat_num = catNum ∧ p.stock = some (q : Int) ∧
      st'.statistics = st.statistics ∧ st'.products = st.products ++ [p] := by
  have hu : createLineUpdateStock "OK" = true := by decide
  unfold createInventoryProductOrUpdateStatisticsAndQuantity
  rw [hnone, hu]
  simp only [if_true]
  exact ⟨_, _, rfl, (inventoryDefaults_fields _ _ _).1, (inventoryDefaults_fields _ _ _).2,
    rfl, rfl, rfl⟩

/-- C8 (witness): the amended statement evaluated at the concrete state `c8Db`. -/
theorem claim_C8_witness :
    ∃ p st', createInventoryProductOrUpdateStatisticsAndQuantity c8Db "CAT-001" 10 10
        (createLineUpdateStock "OK") 0 = Except.ok (p, st') ∧
      p.supplier_cat_item = false ∧ p.cat_num = "CAT-001" ∧
      p.stock = some ((10 : Nat) : Int) ∧
      st'.statistics = c8Db.statistics ∧ st'.products = c8Db.products ++ [p] :=
  claim_C8_new_product_stock_no_stats c8Db "CAT-001" 10 10 0 (by rfl)


/-- C4: when an order for a tracked product makes `order_count` reach n > 1,
the recorded `avg_order_time` equals
`(prior_avg * (n - 1) + new_interval) / n` with `new_interval = now -
last_ordered` and `prior_avg` the stored average when n > 2 and the new
interval otherwise; in particular at n = 2 the recorded average equals the
single observed interval. -/
theorem claim_C4_incremental_average (s : StatisticsRow) (q : Nat) (now t : ℚ)
    (hl : s.last_ordered = some t)
    (h1 : 1 < s.order_count + 1)
    (h2 : 2 < s.order_count + 1 → s.avg_order_time.isSome = true) :
    ∃ s', updateStatisticsOnCreate s q now = some s' ∧
      s'.order_count = s.order_count + 1 ∧
      s'.avg_order_time = some
        (((if 2 < s.order_count + 1 then s.avg_order_time.getD 0 else now - t) *
            (((s.order_count + 1 : Int) : ℚ) - 1) + (now - t)) /
          ((s.order_count + 1 : Int) : ℚ)) ∧
      (s.order_count + 1 = 2 → s'.avg_order_time = some (now - t)) := by
  by_cases h3 : 2 < s.order_count + 1
  · obtain ⟨a, ha⟩ := Option.isSome_iff_exists.mp (h2 h3)
    simp only [updateStatisticsOnCreate, hl, if_pos h1, if_pos h3, ha]
    exact ⟨_, rfl, rfl, by simp, fun he => absurd h3 (by omega)⟩
  · simp only [updateStatisticsOnCreate, hl, if_pos h1, if_neg h3]
    refine ⟨_, rfl, rfl, rfl, fun he => ?_⟩
    have hc : ((s.order_count + 1 : Int) : ℚ) = 2 := by rw [he]; norm_num
    rw [hc]
    ring_nf

/-- C4 (witness): the statement evaluated at a product with one prior order
(`order_count` reaching 2), last ordered at time 0, reconciled at time 5: the
recorded average equals the single observed interval 5. -/
theorem claim_C4_witness :
    ∃ s', updateStatisticsOnCreate c4Stats 10 5 = some s' ∧
      s'.order_count = c4Stats.order_count + 1 ∧
      s'.avg_order_time = some
        (((if 2 < c4Stats.order_count + 1 then c4Stats.avg_order_time.getD 0 else (5 : ℚ) - 0) *
            (((c4Stats.order_count + 1 : Int) : ℚ) - 1) + ((5 : ℚ) - 0)) /
          ((c4Stats.order_count + 1 : Int) : ℚ)) ∧
      (c4Stats.order_count + 1 = 2 → s'.avg_order_time = some ((5 : ℚ) - 0)) :=
  claim_C4_incremental_average c4Stats 10 5 0 (by rfl) (by decide) (by decide)

/-- Running statistics are kept per product and the refresh maps each selected
row to its product, so counting a product id in the refreshed notification list
is counting selected statistics rows of that product. -/
theorem refreshOrderNotifications_eq (now : ℚ) (stats : List StatisticsRow)
    (products : List ProductRow) (notifs : List Nat) :
    refreshOrderNotifications now stats products notifs
      = (stats.filter (orderNotifRowSelected now products)).map (fun s => s.productId) := by
  unfold refreshOrderNotifications
  rw [List.filter_eq_self.mpr]
  intro a _
  simp

/-- For a statistics row whose product exists, the source's selection test
agrees with the relational reorder-notification condition. -/
theorem orderNotifRowSelected_iff (now : ℚ) (products : List ProductRow)
    (s : StatisticsRow) (href : (lookupProduct products s.productId).isSome = true) :
    orderNotifRowSelected now products s = true ↔ orderNotifQualifiesSpec now products s := by
  obtain ⟨p, hp⟩ := Option.isSome_iff_exists.mp href
  unfold orderNotifRowSelected orderNotifCondition orderNotifQualifiesSpec
  rw [hp]
  cases hat : s.avg_order_time <;> cases hlo : s.last_ordered <;> cases hst : p.stock <;>
    simp [hat, hlo, hst]

/-- Counting one product id in the image of a filtered statistics table whose
product ids are pairwise distinct yields 1 or 0 according to whether a row of
that product passes the filter. -/
theorem count_filter_map_pid (f : StatisticsRow → Bool) (pid : Nat)
    (l : List StatisticsRow) (h : (l.map (fun s => s.productId)).Nodup) :
    List.count pid ((l.filter f).map (fun s => s.productId))
      = if ∃ s ∈ l, s.productId = pid ∧ f s = true then 1 else 0 := by
  induction l with
  | nil => simp
  | cons a l ih =>
    rw [List.map_cons, List.nodup_cons] at h
    obtain ⟨hna, hnd⟩ := h
    by_cases hf : f a = true
    · rw [List.filter_cons_of_pos hf, List.map_cons]
      by_cases hpid : a.productId = pid
      · subst hpid
        rw [List.count_cons_self]
        have hz : List.count a.productId ((l.filter f).map (fun s => s.productId)) = 0 := by
          rw [List.count_eq_zero]
          intro hmem
          rcases List.mem_map.mp hmem with ⟨s, hs, hseq⟩
          exact hna (List.mem_map.mpr ⟨s, (List.mem_filter.mp hs).1, hseq⟩)
        rw [hz, if_pos ⟨a, List.mem_cons_self a l, rfl, hf⟩]
      · rw [List.count_cons_of_ne (fun hh => hpid hh.symm), ih hnd]
        have hiff : (∃ s ∈ l, s.productId = pid ∧ f s = true)
            ↔ (∃ s ∈ a :: l, s.productId = pid ∧ f s = true) := by
          constructor
          · rintro ⟨s, hs, hp2, hf2⟩
            exact ⟨s, List.mem_cons_of_mem a hs, hp2, hf2⟩
          · rintro ⟨s, hs, hp2, hf2⟩
            rcases List.mem_cons.mp hs with rfl | hs2
            · exact absurd hp2 hpid
            · exact ⟨s, hs2, hp2, hf2⟩
        by_cases hrest : ∃ s ∈ l, s.productId = pid ∧ f s = true
        · rw [if_pos hrest, if_pos (hiff.mp hrest)]
        · rw [if_neg hrest, if_neg (fun hx => hrest (hiff.mpr hx))]
    · rw [List.filter_cons_of_neg (by simpa using hf), ih hnd]
      have hiff : (∃ s ∈ l, s.productId = pid ∧ f s = true)
          ↔ (∃ s ∈ a :: l, s.productId = pid ∧ f s = true) := by
        constructor
        · rintro ⟨s, hs, hp2, hf2⟩
          exact ⟨s, List.mem_cons_of_mem a hs, hp2, hf2⟩
        · rintro ⟨s, hs, hp2, hf2⟩
          rcases List.mem_cons.mp hs with rfl | hs2
          · exact absurd hf2 hf
          · exact ⟨s, hs2, hp2, hf2⟩
      by_cases hrest : ∃ s ∈ l, s.productId = pid ∧ f s = true
      · rw [if_pos hrest, if_pos (hiff.mp hrest)]
      · rw [if_neg hrest, if_neg (fun hx => hrest (hiff.mpr hx))]

/-- C7: after `refresh_order_notifications` runs over a statistics table with
one row per product and existing product references, a notification row exists
for a product — exactly one — iff some statistics row of that product has
`avg_order_time` and `last_ordered` set with the average interval already
elapsed, or half its `avg_order_quantity` exceeds the product's current stock;
and running the refresh again on unchanged state yields the identical
notification set. -/
theorem claim_C7_reorder_notifications (now : ℚ) (stats : List StatisticsRow)
    (products : List ProductRow) (notifs : List Nat) (pid : Nat)
    (hnd : (stats.map (fun s => s.productId)).Nodup)
    (href : ∀ s ∈ stats, (lookupProduct products s.productId).isSome = true) :
    (List.count pid (refreshOrderNotifications now stats products notifs) = 1 ↔
      ∃ s ∈ stats, s.productId = pid ∧ orderNotifQualifiesSpec now products s) ∧
    (List.count pid (refreshOrderNotifications now stats products notifs) = 0 ↔
      ¬ ∃ s ∈ stats, s.productId = pid ∧ orderNotifQualifiesSpec now products s) ∧
    refreshOrderNotifications now stats products
        (refreshOrderNotifications now stats products notifs)
      = refreshOrderNotifications now stats products notifs := by
  have heq := refreshOrderNotifications_eq now stats products notifs
  have hcnt := count_filter_map_pid (orderNotifRowSelected now products) pid stats hnd
  have hiff : (∃ s ∈ stats, s.productId = pid ∧ orderNotifRowSelected now products s = true)
      ↔ (∃ s ∈ stats, s.productId = pid ∧ orderNotifQualifiesSpec now products s) := by
    constructor
    · rintro ⟨s, hs, hp2, hsel⟩
      exact ⟨s, hs, hp2, (orderNotifRowSelected_iff now products s (href s hs)).mp hsel⟩
    · rintro ⟨s, hs, hp2, hq⟩
      exact ⟨s, hs, hp2, (orderNotifRowSelected_iff now products s (href s hs)).mpr hq⟩
  refine ⟨?_, ?_, rfl⟩
  · rw [heq, hcnt]
    by_cases hx : ∃ s ∈ stats, s.productId = pid ∧ orderNotifRowSelected now products s = true
    · rw [if_pos hx]
      simp [hiff.mp hx]
    · rw [if_neg hx]
      constructor
      · intro h01
        exact absurd h01 (by norm_num)
      · intro hq
        exact absurd (hiff.mpr hq) hx
  · rw [heq, hcnt]
    by_cases hx : ∃ s ∈ stats, s.productId = pid ∧ orderNotifRowSelected now products s = true
    · rw [if_pos hx]
      constructor
      · intro h10
        exact absurd h10 (by norm_num)
      · intro hq
        exact absurd (hiff.mp hx) hq
    · rw [if_neg hx]
      constructor
      · intro _
        exact fun hq => hx (hiff.mpr hq)
      · intro _
        rfl

/-- C7 (witness): Scenario D — a product with average order interval 10 days,
last ordered 15 days before now and ample stock is flagged exactly once, and
the second refresh reproduces the same set. -/
theorem claim_C7_witness :
    (List.count 1 (refreshOrderNotifications 15 [c7Stats] [c7Product] []) = 1 ↔
      ∃ s ∈ [c7Stats], s.productId = 1 ∧ orderNotifQualifiesSpec 15 [c7Product] s) ∧
    (List.count 1 (refreshOrderNotifications 15 [c7Stats] [c7Product] []) = 0 ↔
      ¬ ∃ s ∈ [c7Stats], s.productId = 1 ∧ orderNotifQualifiesSpec 15 [c7Product] s) ∧
    refreshOrderNotifications 15 [c7Stats] [c7Product]
        (refreshOrderNotifications 15 [c7Stats] [c7Product] [])
      = refreshOrderNotifications 15 [c7Stats] [c7Product] [] :=
  claim_C7_reorder_notifications 15 [c7Stats] [c7Product] [] 1 (by decide) (by decide)

/-- The status expression of the update path is truthy for every status, since
its second operand is a non-empty string literal. -/
theorem updateLineStatusTruthy_always (s : String) : updateLineStatusTruthy s = true := by
  simp [updateLineStatusTruthy]

/-- C10: on an order update, a line whose submitted quantity differs from the
stored order-item quantity but carries no `stock_items` list makes the update
fail: the stock-adjustment branch reaches `new_stock_items`, a local that is
only bound inside `if stock_items:`, so the reference raises a `NameError`
instead of adjusting stock. -/
theorem claim_C10_unbound_new_stock_items (st : DB) (orderId : Nat) (line : LineItem)
    (qi : QuoteItemRow) (oi : OrderItemRow) (p : ProductRow) (s0 : Int)
    (hqi : lookupQuoteItem st line.quoteItemId = some qi)
    (hoi : st.orderItems.find?
        (fun o => o.orderId == orderId && o.quoteItemId == some qi.id) = some oi)
    (hp : lookupProduct st.products qi.productId = some p)
    (hs : p.stock = some s0)
    (hhint : line.stockItems = none)
    (hq : line.quantity ≠ oi.quantity) :
    relateQuoteitemToOrderitemUpdate st orderId line
      = Except.error "NameError: name new_stock_items is not defined" := by
  have hbne : (line.quantity != oi.quantity) = true := by simpa using hq
  have hbne2 : (oi.quantity != line.quantity) = true := by simpa using hq.symm
  have hadj : (((line.quantity : Int) - (oi.quantity : Int)) != 0) = true := by
    simp only [bne_iff_ne, ne_eq, sub_eq_zero]
    intro hc
    exact hq (by exact_mod_cast hc)
  unfold relateQuoteitemToOrderitemUpdate
  simp only [hqi, hoi, hp, hhint, hs, updateLineStatusTruthy_always, hintsTruthy,
    Bool.true_and, hbne, hbne2, hadj, if_true, if_false, Bool.false_eq_true,
    updateProductStockOnUpdate, intOptTruthy]

/-- C10 (witness): re-submitting the reconciled line of `c10Db` with quantity 12
instead of the stored 10 and no stock items fails with the unbound-variable
error. -/
theorem claim_C10_witness :
    relateQuoteitemToOrderitemUpdate c10Db 1 c10Line
      = Except.error "NameError: name new_stock_items is not defined" :=
  claim_C10_unbound_new_stock_items c10Db 1 c10Line
    { id := 1, quoteId := 1, productId := 1, quantity := 10, price := some 5 }
    { id := 1, orderId := 1, quoteItemId := some 1, quantity := 10
      status := "OK", issueDetail := none }
    (sampleProduct 1 "CAT-1" true (some 10)) 10
    (by rfl) (by rfl) (by rfl) (by rfl) (by rfl) (by decide)

/-- Creating or updating the inventory product never touches the quote or
quote-item tables. -/
theorem createInv_preserves {st : DB} {c : String} {q qq : Nat} {u : Bool} {now : ℚ}
    {p : ProductRow} {st' : DB}
    (h : createInventoryProductOrUpdateStatisticsAndQuantity st c q qq u now
      = Except.ok (p, st')) :
    st'.quoteItems = st.quoteItems ∧ st'.quotes = st.quotes := by
  unfold createInventoryProductOrUpdateStatisticsAndQuantity at h
  cases hf : st.products.find? (fun pr => pr.cat_num == c && pr.supplier_cat_item == false) with
  | none =>
    simp only [hf] at h
    obtain ⟨hp, hst⟩ := by simpa using h
    subst hst
    exact ⟨rfl, rfl⟩
  | some inv =>
    simp only [hf] at h
    split at h
    · exact Except.noConfusion h
    · obtain ⟨hp, hst⟩ := by simpa using h
      subst hst
      exact ⟨rfl, rfl⟩

/-- A successful order-item creation leaves the quote and quote-item tables
unchanged and reports fulfillment exactly when the submitted quantity matches
the quote item's and the status is `OK`. -/
theorem relateCreate_ok {st : DB} {order : OrderRow} {line : LineItem} {qi : QuoteItemRow}
    {f : Bool} {oi : OrderItemRow} {st' : DB}
    (h : relateQuoteitemToOrderitemCreate st order line qi = Except.ok (f, oi, st')) :
    st'.quoteItems = st.quoteItems ∧ st'.quotes = st.quotes ∧
    f = (qi.quantity == line.quantity && line.status == "OK") := by
  unfold relateQuoteitemToOrderitemCreate at h
  cases hp : lookupProduct st.products qi.productId with
  | none =>
    simp only [hp] at h
    exact Except.noConfusion h
  | some product =>
    simp only [hp] at h
    by_cases hc : (qi.quantity != line.quantity || line.status != "OK") = true
    · rw [if_pos hc] at h
      obtain ⟨hf, hoi, hst⟩ := by simpa using h
      subst hst
      subst hf
      refine ⟨rfl, rfl, ?_⟩
      cases h1 : (qi.quantity == line.quantity) <;> cases h2 : (line.status == "OK") <;>
        simp_all
    · rw [if_neg hc] at h
      obtain ⟨hf, hoi, hst⟩ := by simpa using h
      subst hst
      subst hf
      refine ⟨rfl, rfl, ?_⟩
      cases h1 : (qi.quantity == line.quantity) <;> cases h2 : (line.status == "OK") <;>
        simp_all

/-- Stock-item reconciliation only writes the stock-item table and its id
counter. -/
theorem createOrDeleteStockItems_preserves (st : DB) (hints : Option (List StockItemHint))
    (pid : Nat) (oid : Option Nat) (q : Int) :
    (createOrDeleteStockItems st hints pid oid q).quoteItems = st.quoteItems ∧
    (createOrDeleteStockItems st hints pid oid q).quotes = st.quotes ∧
    (createOrDeleteStockItems st hints pid oid q).products = st.products ∧
    (createOrDeleteStockItems st hints pid oid q).statistics = st.statistics ∧
    (createOrDeleteStockItems st hints pid oid q).orderItems = st.orderItems ∧
    (createOrDeleteStockItems st hints pid oid q).orders = st.orders ∧
    (createOrDeleteStockItems st hints pid oid q).orderNotifications = st.orderNotifications := by
  unfold createOrDeleteStockItems
  split
  · exact ⟨rfl, rfl, rfl, rfl, rfl, rfl, rfl⟩
  · exact ⟨rfl, rfl, rfl, rfl, rfl, rfl, rfl⟩

/-- A successfully processed create line leaves the quote and quote-item
tables unchanged and reports the line's fulfillment as computed against the
pre-line state. -/
theorem processCreateLine_ok {st : DB} {order : OrderRow} {line : LineItem} {now : ℚ}
    {st' : DB} {f : Bool}
    (h : processCreateLine st order line now = Except.ok (st', f)) :
    st'.quoteItems = st.quoteItems ∧ st'.quotes = st.quotes ∧
    f = lineFulfilledB st.quoteItems line := by
  unfold processCreateLine at h
  cases hlq : lookupQuoteItem st line.quoteItemId with
  | none =>
    simp only [hlq] at h
    exact Except.noConfusion h
  | some qi =>
    simp only [hlq] at h
    cases hci : createInventoryProductOrUpdateStatisticsAndQuantity st line.cat_num
        line.quantity qi.quantity (createLineUpdateStock line.status) now with
    | error e =>
      simp only [hci] at h
      exact Except.noConfusion h
    | ok pr =>
      obtain ⟨ip, st1⟩ := pr
      simp only [hci] at h
      cases hrc : relateQuoteitemToOrderitemCreate st1 order line qi with
      | error e =>
        simp only [hrc] at h
        exact Except.noConfusion h
      | ok tr =>
        obtain ⟨f2, oi2, st2⟩ := tr
        simp only [hrc] at h
        obtain ⟨hst, hf⟩ := by simpa using h
        subst hst
        subst hf
        obtain ⟨h1a, h1b⟩ := createInv_preserves hci
        obtain ⟨h2a, h2b, h2f⟩ := relateCreate_ok hrc
        obtain ⟨h3a, h3b, _⟩ := createOrDeleteStockItems_preserves st2 line.stockItems ip.id
          (some oi2.id) (line.quantity : Int)
        refine ⟨h3a.trans (h2a.trans h1a), h3b.trans (h2b.trans h1b), ?_⟩
        rw [h2f]
        unfold lineFulfilledB
        unfold lookupQuoteItem at hlq
        rw [hlq]

/-- The create loop leaves the quote and quote-item tables unchanged and folds
the `quote_fulfilled` flag into the conjunction of per-line fulfillment over
the pre-loop state. -/
theorem processCreateLines_ok {order : OrderRow} {now : ℚ} :
    ∀ (lines : List LineItem) (st : DB) (acc : Bool) (st' : DB) (b : Bool),
      processCreateLines st order acc lines now = Except.ok (st', b) →
      st'.quoteItems = st.quoteItems ∧ st'.quotes = st.quotes ∧
      b = (acc && lines.all (lineFulfilledB st.quoteItems)) := by
  intro lines
  induction lines with
  | nil =>
    intro st acc st' b h
    obtain ⟨hst, hb⟩ := by simpa [processCreateLines] using h
    subst hst
    subst hb
    simp
  | cons line rest ih =>
    intro st acc st' b h
    unfold processCreateLines at h
    cases hpl : processCreateLine st order line now with
    | error e =>
      simp only [hpl] at h
      exact Except.noConfusion h
    | ok pr =>
      obtain ⟨st1, f⟩ := pr
      simp only [hpl] at h
      obtain ⟨hqi1, hq1, hf⟩ := processCreateLine_ok hpl
      obtain ⟨hqi2, hq2, hb⟩ := ih st1 _ st' b h
      refine ⟨hqi2.trans hqi1, hq2.trans hq1, ?_⟩
      rw [hb, hqi1, List.all_cons, ← hf]
      cases f <;> cases acc <;> cases brest : rest.all (lineFulfilledB st.quoteItems) <;> simp

/-- Looking a quote up by id commutes with mapping an id-preserving function
over the quote table. -/
theorem find?_map_id_preserving (f : QuoteRow → QuoteRow)
    (hf : ∀ x, (f x).id = x.id) (l : List QuoteRow) (qid : Nat) :
    (l.map f).find? (fun q2 => q2.id == qid)
      = (l.find? (fun q2 => q2.id == qid)).map f := by
  induction l with
  | nil => rfl
  | cons a l ih =>
    rw [List.map_cons]
    by_cases hx : (a.id == qid) = true
    · rw [List.find?_cons_of_pos (p := fun q2 : QuoteRow => q2.id == qid) _ (by simp only [hf a]; exact hx)]
      rw [List.find?_cons_of_pos (p := fun q2 : QuoteRow => q2.id == qid) _ hx]
      rfl
    · rw [List.find?_cons_of_neg (p := fun q2 : QuoteRow => q2.id == qid) _ (by simp only [hf a]; exact hx)]
      rw [List.find?_cons_of_neg (p := fun q2 : QuoteRow => q2.id == qid) _ hx]
      exact ih

/-- After `is_quote_fulfilled` persists the fulfillment outcome, looking the
quote up returns it with the corresponding status. -/
theorem lookup_isQuoteFulfilledApply (quotes : List QuoteRow) (qid : Nat) (b : Bool)
    (q : QuoteRow) (h : quotes.find? (fun q2 => q2.id == qid) = some q) :
    (isQuoteFulfilledApply quotes qid b).find? (fun q2 => q2.id == qid)
      = some { q with status := if !b then "ARRIVED, UNFULFILLED" else "FULFILLED" } := by
  have hfind := find?_map_id_preserving
    (fun q2 => if q2.id == qid then
      { q2 with status := if !b then "ARRIVED, UNFULFILLED" else "FULFILLED" } else q2)
    (fun x => by by_cases hx : (x.id == qid) = true <;> simp [hx]) quotes qid
  have hp : (q.id == qid) = true := List.find?_some (p := fun q2 : QuoteRow => q2.id == qid) h
  unfold isQuoteFulfilledApply
  rw [hfind, h]
  simp only [Option.map_some']
  rw [if_pos hp]

/-- The boolean conjunction of per-line fulfillment agrees with the relational
fulfillment condition of the claim. -/
theorem all_lineFulfilledB_iff (st : DB) (lines : List LineItem) :
    (lines.all (lineFulfilledB st.quoteItems) = true) ↔ allLinesFulfilledSpec st lines := by
  rw [List.all_eq_true]
  unfold allLinesFulfilledSpec
  constructor
  · intro h line hm
    have hl := h line hm
    unfold lineFulfilledB at hl
    cases hf : st.quoteItems.find? (fun qi => qi.id == line.quoteItemId) with
    | none => rw [hf] at hl; exact absurd hl (by simp)
    | some qi =>
      rw [hf] at hl
      simp only [Bool.and_eq_true, beq_iff_eq] at hl
      exact ⟨qi, hf, hl.1.symm, hl.2⟩
  · intro h line hm
    obtain ⟨qi, hqi, h1, h2⟩ := h line hm
    unfold lookupQuoteItem at hqi
    unfold lineFulfilledB
    rw [hqi]
    simp [← h1, h2]

/-- C3: when order creation succeeds, the related quote's status is
`FULFILLED` iff every submitted line references an existing quote item whose
quantity equals the submitted quantity with status `OK`, and otherwise its
status is `ARRIVED, UNFULFILLED`. -/
theorem claim_C3_quote_fulfillment (st : DB) (req : OrderRequest) (now : ℚ) (st' : DB)
    (h : orderCreate st req now = Except.ok st') :
    ∃ q, lookupQuote st' req.quoteId = some q ∧
      (q.status = "FULFILLED" ↔ allLinesFulfilledSpec st req.items) ∧
      (q.status = "ARRIVED, UNFULFILLED" ↔ ¬ allLinesFulfilledSpec st req.items) := by
  unfold orderCreate at h
  cases hlq : lookupQuote st req.quoteId with
  | none =>
    simp only [hlq] at h
    exact Except.noConfusion h
  | some q0 =>
    simp only [hlq] at h
    split at h
    · exact Except.noConfusion h
    · rename_i st2 b heq
      obtain hst := by simpa using h
      subst hst
      obtain ⟨hqi, hq, hb⟩ := processCreateLines_ok req.items _ true st2 b heq
      have hb2 : b = req.items.all (lineFulfilledB st.quoteItems) := by simpa using hb
      have hlq2 : st.quotes.find? (fun q2 => q2.id == req.quoteId) = some q0 := hlq
      have hfound := lookup_isQuoteFulfilledApply st.quotes req.quoteId b q0 hlq2
      refine ⟨{ q0 with status := if !b then "ARRIVED, UNFULFILLED" else "FULFILLED" }, ?_, ?_⟩
      · show (isQuoteFulfilledApply st2.quotes req.quoteId b).find?
          (fun q2 => q2.id == req.quoteId) = _
        rw [show st2.quotes = st.quotes from by simpa using hq]
        exact hfound
      · cases b with
        | true =>
          have hall : req.items.all (lineFulfilledB st.quoteItems) = true := hb2.symm
          have hspec := (all_lineFulfilledB_iff st req.items).mp hall
          exact ⟨iff_of_true rfl hspec,
            iff_of_false (by show ¬("FULFILLED" = "ARRIVED, UNFULFILLED"); decide)
              (not_not_intro hspec)⟩
        | false =>
          have hall : req.items.all (lineFulfilledB st.quoteItems) = false := hb2.symm
          have hnspec : ¬ allLinesFulfilledSpec st req.items := by
            intro hs
            have := (all_lineFulfilledB_iff st req.items).mpr hs
            rw [this] at hall
            exact absurd hall (by decide)
          exact ⟨iff_of_false (by show ¬("ARRIVED, UNFULFILLED" = "FULFILLED"); decide) hnspec,
            iff_of_true rfl hnspec⟩

/-- C3 (witness): the fully matching request `c3Req` against `c3Db` ends with
the quote status `FULFILLED`, in accordance with the fulfillment condition. -/
theorem claim_C3_witness :
    ∃ q, lookupQuote c3Result c3Req.quoteId = some q ∧
      (q.status = "FULFILLED" ↔ allLinesFulfilledSpec c3Db c3Req.items) ∧
      (q.status = "ARRIVED, UNFULFILLED" ↔ ¬ allLinesFulfilledSpec c3Db c3Req.items) :=
  claim_C3_quote_fulfillment c3Db c3Req 0 c3Result (by rfl)

/-- A freshly created statistics row (count 0, null timestamps) is sane. -/
theorem freshStatistics_sane (pid : Nat) : statsSane (freshStatistics pid) := by
  constructor <;> intro hc <;> simp [freshStatistics] at hc

/-- On a sane statistics row the incremental update never hits the `None`
arithmetic that would raise in Python. -/
theorem updateStatisticsOnCreate_isSome (s : StatisticsRow) (q : Nat) (now : ℚ)
    (hs : statsSane s) : (updateStatisticsOnCreate s q now).isSome = true := by
  by_cases h1 : s.order_count + 1 > 1
  · obtain ⟨t, ht⟩ := Option.isSome_iff_exists.mp (hs.1 (by omega))
    by_cases h2 : s.order_count + 1 > 2
    · obtain ⟨a, ha⟩ := Option.isSome_iff_exists.mp (hs.2 (by omega))
      simp only [updateStatisticsOnCreate, ht, ha, if_pos h1, if_pos h2]
      rfl
    · simp only [updateStatisticsOnCreate, ht, if_pos h1, if_neg h2]
      rfl
  · simp only [updateStatisticsOnCreate, if_neg h1]
    rfl

/-- The incremental statistics update yields a sane row for the same product. -/
theorem updateStatisticsOnCreate_sane (s : StatisticsRow) (q : Nat) (now : ℚ)
    (s' : StatisticsRow) (h : updateStatisticsOnCreate s q now = some s') :
    statsSane s' ∧ s'.productId = s.productId := by
  by_cases h1 : s.order_count + 1 > 1
  · cases ht : s.last_ordered with
    | none =>
      simp only [updateStatisticsOnCreate, ht, if_pos h1] at h
      exact Option.noConfusion h
    | some t =>
      simp only [updateStatisticsOnCreate, ht, if_pos h1] at h
      by_cases h2 : s.order_count + 1 > 2
      · rw [if_pos h2] at h
        cases ha : s.avg_order_time with
        | none =>
          simp only [ha] at h
          exact Option.noConfusion h
        | some a =>
          simp only [ha] at h
          obtain hs' := Option.some.inj h
          subst hs'
          exact ⟨⟨fun _ => rfl, fun _ => rfl⟩, rfl⟩
      · rw [if_neg h2] at h
        obtain hs' := Option.some.inj h
        subst hs'
        exact ⟨⟨fun _ => rfl, fun _ => rfl⟩, rfl⟩
  · simp only [updateStatisticsOnCreate, if_neg h1] at h
    obtain hs' := Option.some.inj h
    subst hs'
    exact ⟨⟨fun _ => rfl,
      fun h2 => absurd (show (2 : Int) ≤ s.order_count + 1 from h2) (by omega)⟩, rfl⟩

/-- Writing a sane row back into an all-sane statistics table keeps every row
sane. -/
theorem upsertStatistics_sane (stats : List StatisticsRow) (row : StatisticsRow)
    (hall : ∀ r ∈ stats, statsSane r) (hrow : statsSane row) :
    ∀ r ∈ upsertStatistics stats row, statsSane r := by
  intro r hr
  unfold upsertStatistics at hr
  split at hr
  · rcases List.mem_map.mp hr with ⟨r0, hr0, heq⟩
    by_cases hc : (r0.productId == row.productId) = true
    · rw [if_pos hc] at heq
      subst heq
      exact hrow
    · rw [if_neg hc] at heq
      subst heq
      exact hall r0 hr0
  · rcases List.mem_append.mp hr with h1 | h2
    · exact hall r h1
    · rw [List.mem_singleton.mp h2]
      exact hrow

/-- Well-formedness only concerns the quote-item, product and statistics
tables, so it transfers along states agreeing on them. -/
theorem dbWellFormed_transfer (st st' : DB)
    (hq : st'.quoteItems = st.quoteItems) (hp : st'.products = st.products)
    (hs : st'.statistics = st.statistics) (hwf : dbWellFormed st) :
    dbWellFormed st' := by
  constructor
  · rw [hq, hp]
    exact hwf.1
  · rw [hs]
    exact hwf.2

/-- On a well-formed state, creating or updating the inventory product always
succeeds (the statistics `TypeError` is unreachable). -/
theorem createInv_isOk (st : DB) (c : String) (q qq : Nat) (u : Bool) (now : ℚ)
    (hwf : dbWellFormed st) :
    ∃ r, createInventoryProductOrUpdateStatisticsAndQuantity st c q qq u now
      = Except.ok r := by
  unfold createInventoryProductOrUpdateStatisticsAndQuantity
  cases hf : st.products.find? (fun pr => pr.cat_num == c && pr.supplier_cat_item == false) with
  | none =>
    simp only [hf]
    exact ⟨_, rfl⟩
  | some inv =>
    simp only [hf]
    cases hfind : st.statistics.find? (fun r => r.productId == inv.id) with
    | none =>
      simp only [hfind]
      obtain ⟨s', hs'⟩ := Option.isSome_iff_exists.mp
        (updateStatisticsOnCreate_isSome (freshStatistics inv.id) q now
          (freshStatistics_sane inv.id))
      simp only [hs']
      exact ⟨_, rfl⟩
    | some r0 =>
      simp only [hfind]
      obtain ⟨s', hs'⟩ := Option.isSome_iff_exists.mp
        (updateStatisticsOnCreate_isSome r0 q now
          (hwf.2 r0 (List.mem_of_find?_eq_some hfind)))
      simp only [hs']
      exact ⟨_, rfl⟩

/-- Mapping an id-preserving function over the product table preserves the
existence of a product with a given id. -/
theorem exists_mem_map_id {products : List ProductRow} {i : Nat}
    (f : ProductRow → ProductRow) (hf : ∀ x, (f x).id = x.id)
    (hex : ∃ pr ∈ products, pr.id = i) : ∃ pr ∈ products.map f, pr.id = i := by
  obtain ⟨pr, hpr, hid⟩ := hex
  exact ⟨f pr, List.mem_map.mpr ⟨pr, hpr, rfl⟩, (hf pr).trans hid⟩

/-- A successful inventory create-or-update preserves well-formedness. -/
theorem createInv_wf_of_ok {st : DB} {c : String} {q qq : Nat} {u : Bool} {now : ℚ}
    {p : ProductRow} {st' : DB}
    (hwf : dbWellFormed st)
    (h : createInventoryProductOrUpdateStatisticsAndQuantity st c q qq u now
      = Except.ok (p, st')) :
    dbWellFormed st' := by
  unfold createInventoryProductOrUpdateStatisticsAndQuantity at h
  cases hf : st.products.find? (fun pr => pr.cat_num == c && pr.supplier_cat_item == false) with
  | none =>
    simp only [hf] at h
    injection h with h1
    injection h1 with hp hst
    subst hst
    constructor
    · intro qi hqi
      obtain ⟨pr, hpr, hid⟩ := hwf.1 qi hqi
      exact ⟨pr, List.mem_append_left _ hpr, hid⟩
    · exact hwf.2
  | some inv =>
    simp only [hf] at h
    cases hfind : st.statistics.find? (fun r => r.productId == inv.id) with
    | none =>
      simp only [hfind] at h
      cases hupd : updateStatisticsOnCreate (freshStatistics inv.id) q now with
      | none =>
        simp only [hupd] at h
        exact Except.noConfusion h
      | some s2 =>
        simp only [hupd] at h
        injection h with h1
        injection h1 with hp hst
        subst hst
        constructor
        · intro qi hqi
          refine exists_mem_map_id _ (fun x => ?_) (hwf.1 qi hqi)
          by_cases hc : (x.id == inv.id) = true
          · have hce : x.id = inv.id := by simpa using hc
            cases u <;> simp [hc, hce]
          · simp [hc]
        · exact upsertStatistics_sane _ _ hwf.2 (updateStatisticsOnCreate_sane _ q now s2 hupd).1
    | some r0 =>
      simp only [hfind] at h
      cases hupd : updateStatisticsOnCreate r0 q now with
      | none =>
        simp only [hupd] at h
        exact Except.noConfusion h
      | some s2 =>
        simp only [hupd] at h
        injection h with h1
        injection h1 with hp hst
        subst hst
        constructor
        · intro qi hqi
          refine exists_mem_map_id _ (fun x => ?_) (hwf.1 qi hqi)
          by_cases hc : (x.id == inv.id) = true
          · have hce : x.id = inv.id := by simpa using hc
            cases u <;> simp [hc, hce]
          · simp [hc]
        · exact upsertStatistics_sane _ _ hwf.2 (updateStatisticsOnCreate_sane _ q now s2 hupd).1

/-- When the quote item's product exists, order-item creation succeeds. -/
theorem relateCreate_isOk (st : DB) (order : OrderRow) (line : LineItem) (qi : QuoteItemRow)
    (hex : ∃ pr ∈ st.products, pr.id = qi.productId) :
    ∃ r, relateQuoteitemToOrderitemCreate st order line qi = Except.ok r := by
  unfold relateQuoteitemToOrderitemCreate
  have hsome : (lookupProduct st.products qi.productId).isSome = true := by
    unfold lookupProduct
    rw [List.find?_isSome]
    obtain ⟨pr, hpr, hid⟩ := hex
    exact ⟨pr, hpr, by simpa using hid⟩
  obtain ⟨pr, hpr⟩ := Option.isSome_iff_exists.mp hsome
  simp only [hpr]
  split
  · exact ⟨_, rfl⟩
  · exact ⟨_, rfl⟩

/-- A successful order-item creation preserves well-formedness. -/
theorem relateCreate_wf_of_ok {st : DB} {order : OrderRow} {line : LineItem}
    {qi : QuoteItemRow} {f : Bool} {oi : OrderItemRow} {st' : DB}
    (hwf : dbWellFormed st)
    (h : relateQuoteitemToOrderitemCreate st order line qi = Except.ok (f, oi, st')) :
    dbWellFormed st' := by
  unfold relateQuoteitemToOrderitemCreate at h
  cases hp : lookupProduct st.products qi.productId with
  | none =>
    simp only [hp] at h
    exact Except.noConfusion h
  | some product =>
    simp only [hp] at h
    split at h
    all_goals
      injection h with h1
      injection h1 with hf h2
      injection h2 with hoi hst
      subst hst
      constructor
      · intro qi2 hqi2
        refine exists_mem_map_id _ (fun x => ?_) (hwf.1 qi2 hqi2)
        by_cases hc : (x.id == product.id) = true
        · have hce : x.id = product.id := by simpa using hc
          simp [hc, hce]
        · simp [hc]
      · exact hwf.2

/-- On a well-formed state, a create line whose quote item exists processes
successfully into a well-formed state. -/
theorem processCreateLine_okWF (st : DB) (order : OrderRow) (line : LineItem) (now : ℚ)
    (qi : QuoteItemRow)
    (hwf : dbWellFormed st)
    (hql : lookupQuoteItem st line.quoteItemId = some qi) :
    ∃ st' f, processCreateLine st order line now = Except.ok (st', f) ∧ dbWellFormed st' := by
  unfold processCreateLine
  simp only [hql]
  obtain ⟨⟨ip, st1⟩, hci⟩ := createInv_isOk st line.cat_num line.quantity qi.quantity
    (createLineUpdateStock line.status) now hwf
  simp only [hci]
  have hwf1 : dbWellFormed st1 := createInv_wf_of_ok hwf hci
  have hqe1 : st1.quoteItems = st.quoteItems := (createInv_preserves hci).1
  have hex : ∃ pr ∈ st1.products, pr.id = qi.productId := by
    apply hwf1.1
    rw [hqe1]
    exact List.mem_of_find?_eq_some hql
  obtain ⟨⟨f2, oi2, st2⟩, hrc⟩ := relateCreate_isOk st1 order line qi hex
  simp only [hrc]
  refine ⟨_, _, rfl, ?_⟩
  have hwf2 : dbWellFormed st2 := relateCreate_wf_of_ok hwf1 hrc
  obtain ⟨hq3, _, hp3, hs3, _⟩ := createOrDeleteStockItems_preserves st2 line.stockItems
    ip.id (some oi2.id) (line.quantity : Int)
  exact dbWellFormed_transfer st2 _ hq3 hp3 hs3 hwf2

/-- Quote-item lookup only reads the quote-item table. -/
theorem lookupQuoteItem_congr {st st' : DB} (h : st'.quoteItems = st.quoteItems) (i : Nat) :
    lookupQuoteItem st' i = lookupQuoteItem st i := by
  unfold lookupQuoteItem
  rw [h]

/-- On a well-formed state, if some submitted line references a nonexistent
quote item, the create loop fails with the validation error naming one such id
(the first one reached). -/
theorem processCreateLines_missing (order : OrderRow) (now : ℚ) :
    ∀ (lines : List LineItem) (st : DB) (acc : Bool),
      dbWellFormed st →
      (∃ line ∈ lines, lookupQuoteItem st line.quoteItemId = none) →
      ∃ i, (∃ line ∈ lines, line.quoteItemId = i) ∧ lookupQuoteItem st i = none ∧
        processCreateLines st order acc lines now = Except.error (quoteItemMissingMsg i) := by
  intro lines
  induction lines with
  | nil =>
    intro st acc _ hmiss
    obtain ⟨line, hm, _⟩ := hmiss
    exact absurd hm (List.not_mem_nil line)
  | cons line rest ih =>
    intro st acc hwf hmiss
    cases hql : lookupQuoteItem st line.quoteItemId with
    | none =>
      refine ⟨line.quoteItemId, ⟨line, List.mem_cons_self line rest, rfl⟩, hql, ?_⟩
      unfold processCreateLines processCreateLine
      simp only [hql]
    | some qi =>
      have hrest : ∃ l2 ∈ rest, lookupQuoteItem st l2.quoteItemId = none := by
        obtain ⟨l2, hm, hn⟩ := hmiss
        rcases List.mem_cons.mp hm with rfl | hm2
        · rw [hql] at hn
          exact Option.noConfusion hn
        · exact ⟨l2, hm2, hn⟩
      obtain ⟨st1, f, hpl, hwf1⟩ := processCreateLine_okWF st order line now qi hwf hql
      have hqe : st1.quoteItems = st.quoteItems := (processCreateLine_ok hpl).1
      have hrest1 : ∃ l2 ∈ rest, lookupQuoteItem st1 l2.quoteItemId = none := by
        obtain ⟨l2, hm2, hn⟩ := hrest
        exact ⟨l2, hm2, (lookupQuoteItem_congr hqe l2.quoteItemId).trans hn⟩
      obtain ⟨i, hmem, hnone1, herr⟩ := ih st1 (if !f && acc then false else acc) hwf1 hrest1
      refine ⟨i, ?_, ?_, ?_⟩
      · obtain ⟨l2, hm2, hi⟩ := hmem
        exact ⟨l2, List.mem_cons_of_mem line hm2, hi⟩
      · rw [← lookupQuoteItem_congr hqe i]
        exact hnone1
      · unfold processCreateLines
        simp only [hpl]
        exact herr

/-- In-place stock-item updates never touch the quote-item table. -/
theorem updateStockItems_quoteItems :
    ∀ (hints : List StockItemHint) (st st' : DB),
      updateStockItems st hints = Except.ok st' → st'.quoteItems = st.quoteItems := by
  intro hints
  induction hints with
  | nil =>
    intro st st' h
    injection h with h1
    rw [← h1]
  | cons hint rest ih =>
    intro st st' h
    unfold updateStockItems at h
    cases hid : hint.hintId with
    | none =>
      simp only [hid] at h
      exact Except.noConfusion h
    | some i =>
      simp only [hid] at h
      split at h
      · have hrec := ih _ st' h
        exact hrec
      · exact Except.noConfusion h

/-- A successfully processed update line had resolved its quote item. -/
theorem relateUpdate_ok_found {st : DB} {oid : Nat} {line : LineItem} {r : DB × Bool}
    (h : relateQuoteitemToOrderitemUpdate st oid line = Except.ok r) :
    (lookupQuoteItem st line.quoteItemId).isSome = true := by
  unfold relateQuoteitemToOrderitemUpdate at h
  cases hql : lookupQuoteItem st line.quoteItemId with
  | none =>
    simp only [hql] at h
    exact Except.noConfusion h
  | some qi => rfl

/-- A successfully processed update line leaves the quote-item table
unchanged. -/
theorem relateUpdate_quoteItems {st : DB} {oid : Nat} {line : LineItem} {st' : DB} {f : Bool}
    (h : relateQuoteitemToOrderitemUpdate st oid line = Except.ok (st', f)) :
    st'.quoteItems = st.quoteItems := by
  unfold relateQuoteitemToOrderitemUpdate at h
  cases hql : lookupQuoteItem st line.quoteItemId with
  | none =>
    simp only [hql] at h
    exact Except.noConfusion h
  | some qi =>
    simp only [hql] at h
    cases hoi : st.orderItems.find?
        (fun oi => oi.orderId == oid && oi.quoteItemId == some qi.id) with
    | none =>
      simp only [hoi] at h
      exact Except.noConfusion h
    | some oi =>
      simp only [hoi] at h
      cases hp : lookupProduct st.products qi.productId with
      | none =>
        simp only [hp] at h
        exact Except.noConfusion h
      | some product =>
        simp only [hp] at h
        by_cases hh : hintsTruthy line.stockItems = true
        · rw [if_pos hh] at h
          cases hu : updateStockItems st
              (List.filter (fun h2 => !(h2.hintId == none)) (line.stockItems.getD [])) with
          | error e =>
            simp only [hu] at h
            exact Except.noConfusion h
          | ok st1 =>
            simp only [hu] at h
            have hq1 : st1.quoteItems = st.quoteItems := updateStockItems_quoteItems _ st st1 hu
            split at h
            · exact Except.noConfusion h
            · rename_i st3 heq3
              have hq3 : st3.quoteItems = st.quoteItems := by
                by_cases hcond :
                    (updateLineStatusTruthy line.status && line.quantity != oi.quantity) = true
                · rw [if_pos hcond] at heq3
                  cases hup : updateProductStockOnUpdate product.stock line.quantity
                      oi.quantity with
                  | error e =>
                    simp only [hup] at heq3
                    exact Except.noConfusion heq3
                  | ok adjStock =>
                    obtain ⟨adj, newStock⟩ := adjStock
                    simp only [hup] at heq3
                    by_cases hadj : intOptTruthy adj = true
                    · rw [if_pos hadj] at heq3
                      injection heq3 with h3
                      rw [← h3]
                      have := (createOrDeleteStockItems_preserves
                        { st1 with products := st1.products.map (fun p =>
                            if p.id == product.id then { p with stock := newStock } else p) }
                        (some (List.filter (fun h2 => h2.hintId == none)
                          (line.stockItems.getD [])))
                        qi.productId (some oi.id) (adj.getD 0)).1
                      exact this.trans hq1
                    · rw [if_neg hadj] at heq3
                      injection heq3 with h3
                      rw [← h3]
                      exact hq1
                · rw [if_neg hcond] at heq3
                  injection heq3 with h3
                  rw [← h3]
                  exact hq1
              split at h <;>
              · injection h with h1
                injection h1 with hst hf
                subst hst
                exact hq3
        · rw [if_neg hh] at h
          split at h
          · rename_i e heq1
            exact Except.noConfusion heq1
          · rename_i st1v ns heq1
            injection heq1 with h1
            injection h1 with hst1 hns
            subst hst1
            subst hns
            split at h
            · exact Except.noConfusion h
            · rename_i st3 heq3
              have hq3 : st3.quoteItems = st.quoteItems := by
                by_cases hcond :
                    (updateLineStatusTruthy line.status && line.quantity != oi.quantity) = true
                · rw [if_pos hcond] at heq3
                  cases hup : updateProductStockOnUpdate product.stock line.quantity
                      oi.quantity with
                  | error e =>
                    simp only [hup] at heq3
                    exact Except.noConfusion heq3
                  | ok adjStock =>
                    obtain ⟨adj, newStock⟩ := adjStock
                    simp only [hup] at heq3
                    by_cases hadj : intOptTruthy adj = true
                    · rw [if_pos hadj] at heq3
                      exact Except.noConfusion heq3
                    · rw [if_neg hadj] at heq3
                      injection heq3 with h3
                      rw [← h3]
                · rw [if_neg hcond] at heq3
                  injection heq3 with h3
                  rw [← h3]
              split at h <;>
              · injection h with h1
                injection h1 with hst hf
                subst hst
                exact hq3

/-- If some submitted line references a nonexistent quote item, the update loop
cannot complete: it fails with some error (possibly an earlier line's failure,
see the C10 defect). -/
theorem processUpdateLines_missing (oid : Nat) :
    ∀ (lines : List LineItem) (st : DB) (acc : Bool),
      (∃ line ∈ lines, lookupQuoteItem st line.quoteItemId = none) →
      ∃ e, processUpdateLines st oid acc lines = Except.error e := by
  intro lines
  induction lines with
  | nil =>
    intro st acc hmiss
    obtain ⟨line, hm, _⟩ := hmiss
    exact absurd hm (List.not_mem_nil line)
  | cons line rest ih =>
    intro st acc hmiss
    cases hru : relateQuoteitemToOrderitemUpdate st oid line with
    | error e =>
      refine ⟨e, ?_⟩
      unfold processUpdateLines
      simp only [hru]
    | ok pr =>
      obtain ⟨st1, f⟩ := pr
      have hfound := relateUpdate_ok_found hru
      have hrest : ∃ l2 ∈ rest, lookupQuoteItem st l2.quoteItemId = none := by
        obtain ⟨l2, hm, hn⟩ := hmiss
        rcases List.mem_cons.mp hm with rfl | hm2
        · rw [hn] at hfound
          exact absurd hfound (by simp)
        · exact ⟨l2, hm2, hn⟩
      have hqe : st1.quoteItems = st.quoteItems := relateUpdate_quoteItems hru
      have hrest1 : ∃ l2 ∈ rest, lookupQuoteItem st1 l2.quoteItemId = none := by
        obtain ⟨l2, hm2, hn⟩ := hrest
        exact ⟨l2, hm2, (lookupQuoteItem_congr hqe l2.quoteItemId).trans hn⟩
      obtain ⟨e, herr⟩ := ih st1 (if !f && acc then false else acc) hrest1
      refine ⟨e, ?_⟩
      unfold processUpdateLines
      simp only [hru]
      exact herr

/-- An order update with a missing quote-item reference fails, and the atomic
wrapper leaves the state untouched. -/
theorem orderUpdate_missing (st : DB) (oid : Nat) (req : OrderRequest) (q : QuoteRow)
    (hq : lookupQuote st req.quoteId = some q)
    (hmiss : ∃ line ∈ req.items, lookupQuoteItem st line.quoteItemId = none) :
    ∃ e, orderUpdate st oid req = Except.error e ∧ orderUpdateAtomic st oid req = st := by
  obtain ⟨e, herr⟩ := processUpdateLines_missing oid req.items st true hmiss
  have hupd : orderUpdate st oid req = Except.error e := by
    unfold orderUpdate
    simp only [hq, herr]
  refine ⟨e, hupd, ?_⟩
  unfold orderUpdateAtomic
  rw [hupd]

/-- On a well-formed state, an order create with a missing quote-item reference
fails with the validation error naming the missing id, and the atomic wrapper
leaves the state untouched. -/
theorem orderCreate_missing (st : DB) (req : OrderRequest) (now : ℚ) (q : QuoteRow)
    (hwf : dbWellFormed st)
    (hq : lookupQuote st req.quoteId = some q)
    (hmiss : ∃ line ∈ req.items, lookupQuoteItem st line.quoteItemId = none) :
    ∃ i, (∃ line ∈ req.items, line.quoteItemId = i) ∧ lookupQuoteItem st i = none ∧
      orderCreate st req now = Except.error (quoteItemMissingMsg i) ∧
      orderCreateAtomic st req now = st := by
  obtain ⟨i, hmem, hnone, herr⟩ := processCreateLines_missing
    { id := st.nextOrderId, quoteId := some req.quoteId, arrivalDate := req.arrivalDate,
      receivedBy := req.receivedBy }
    now req.items
    { st with
        orders := st.orders ++
          [{ id := st.nextOrderId, quoteId := some req.quoteId,
             arrivalDate := req.arrivalDate, receivedBy := req.receivedBy }],
        nextOrderId := st.nextOrderId + 1 }
    true
    (dbWellFormed_transfer st _ rfl rfl rfl hwf)
    (by
      obtain ⟨l, hm, hn⟩ := hmiss
      exact ⟨l, hm, hn⟩)
  have hcr : orderCreate st req now = Except.error (quoteItemMissingMsg i) := by
    unfold orderCreate
    simp only [hq]
    rw [herr]
  refine ⟨i, hmem, hnone, hcr, ?_⟩
  unfold orderCreateAtomic
  rw [hcr]

/-- C5 (amended): on a well-formed state (intact quote-item product references,
internally consistent statistics), an order create in which some line's
`quote_item_id` matches no `QuoteItem` raises the validation failure naming the
missing id and, through the atomic transaction, leaves the entire database
state exactly as before, including mutations of earlier lines; an order update
with such a line likewise fails and rolls back completely, though its error may
be an earlier line's failure rather than the validation message. -/
theorem claim_C5_missing_quote_item_rolls_back (st : DB) (req : OrderRequest)
    (now : ℚ) (orderId : Nat) (q : QuoteRow)
    (hwf : dbWellFormed st)
    (hq : lookupQuote st req.quoteId = some q)
    (hmiss : ∃ line ∈ req.items, lookupQuoteItem st line.quoteItemId = none) :
    (∃ i, (∃ line ∈ req.items, line.quoteItemId = i) ∧ lookupQuoteItem st i = none ∧
      orderCreate st req now = Except.error (quoteItemMissingMsg i) ∧
      orderCreateAtomic st req now = st) ∧
    (∃ e, orderUpdate st orderId req = Except.error e ∧
      orderUpdateAtomic st orderId req = st) :=
  ⟨orderCreate_missing st req now q hwf hq hmiss,
   orderUpdate_missing st orderId req q hq hmiss⟩

/-- C5 (counterexample): the claim promises a validation failure naming the
missing id for update invocations as well, but an update whose first line
changes a quantity without stock items fails with the unbound-variable
`NameError` before the missing-reference line is reached — not with the
validation message — though the state is still fully rolled back. -/
theorem claim_C5_update_fails_with_name_error :
    (∃ line ∈ c5uReq.items, lookupQuoteItem c5uDb line.quoteItemId = none) ∧
    orderUpdate c5uDb 1 c5uReq
      = Except.error "NameError: name new_stock_items is not defined" ∧
    orderUpdateAtomic c5uDb 1 c5uReq = c5uDb :=
  ⟨by decide, by rfl, by rfl⟩

/-- C5 (witness): the amended statement evaluated at `c5Db` with the request
`c5Req` whose single line references the nonexistent quote item 42. -/
theorem claim_C5_witness :
    (∃ i, (∃ line ∈ c5Req.items, line.quoteItemId = i) ∧ lookupQuoteItem c5Db i = none ∧
      orderCreate c5Db c5Req 0 = Except.error (quoteItemMissingMsg i) ∧
      orderCreateAtomic c5Db c5Req 0 = c5Db) ∧
    (∃ e, orderUpdate c5Db 1 c5Req = Except.error e ∧
      orderUpdateAtomic c5Db 1 c5Req = c5Db) :=
  claim_C5_missing_quote_item_rolls_back c5Db c5Req 0 1
    { id := 7, supplierId := 1, status := "RECEIVED" }
    (by
      unfold dbWellFormed
      exact ⟨fun qi hqi => absurd hqi (List.not_mem_nil qi),
        fun s hs => absurd hs (List.not_mem_nil s)⟩)
    (by rfl) (by decide)
